import Mathlib

/-!
# Shelly machine auto-off script: embedding and verification

Shallow embedding of `src/shelly_auto_off.js`.

The script is a set of global variables mutated by event callbacks that the
Shelly host invokes one at a time.  The embedding is explicit state passing:
every source function becomes a Lean function from the state to the new state
together with the list of host calls it issued, in program order.

Modelling conventions.

* JavaScript numbers that carry power readings or configured durations are
  rationals (every finite double is a rational and `>=` on finite doubles is the
  order of the rationals).  `Date.now()` is an integer number of milliseconds and
  is passed to the callbacks that read the clock.
* A timer-handle variable is `Option Handle`: `none` is `null`, `some h` is a
  handle returned by `Timer.set`.  Handles returned by `Timer.set` are truthy, so
  `if (handle)` and `handle !== null` are both `isSome`.
* The host's table of pending timers is part of the state (`timers`), so that
  "the timer fires" is a transition of the model: `Timer.set` appends an entry
  under a fresh handle, `Timer.clear` removes the entries with the given handle,
  and a one-shot timer is removed from the table when it fires.
* `print` lines that only trace execution (`DEBUG:`, `WARNING:`) are not
  recorded.  The `ERROR:` lines of the two cloud helpers are recorded, because
  they are the only observable outcome of those helpers when the scene is not
  mapped or the key is not set.  The completion callbacks of `Shelly.call` are
  events of their own; they only print, and their `ERROR:` line is recorded.
* `SCENE_IDS` is a list of (name, identifier) pairs, its own properties.  The
  expression `SCENE_IDS[name]` follows the prototype chain: when the object has no
  own entry of that name it yields the property of that name that every object
  inherits (`constructor`, `toString`, ...), if there is one.  Which properties
  are inherited, and the text each contributes to a string concatenation, belongs
  to the script engine; it is carried in the configuration record as
  `inheritedProperties`, so that theorems over every configuration hold for
  every engine.
-/

namespace ShellyAutoOff

/-! ## Data model -/

/-- States of the finite state machine (`STATE` in the source). -/
inductive Phase where
  | IDLE
  | DELAY
  | MONITORING
  deriving DecidableEq, Repr

/-- Timer handle as returned by `Timer.set`. -/
abbrev Handle := Nat

/-- The functions the script passes to `Timer.set`. -/
inductive Callback where
  | startMonitoring
  | handleInitialCheckTimeout
  | pollTick
  | keepAlive
  deriving DecidableEq, Repr

/-- One pending timer of the host: `Timer.set(period, repeating, callback)`. -/
structure TimerEntry where
  handle : Handle
  period : ℚ
  repeating : Bool
  callback : Callback
  deriving DecidableEq, Repr

/-- The configuration block at the top of the script, followed by the one fact about the script
engine that the cloud helpers depend on: the truthy properties every object inherits from its
prototype, each with the text it contributes to a string concatenation. -/
structure Config where
  ENABLE_KEEP_ALIVE : Bool
  INITIAL_DELAY_MINUTES : ℚ
  CHECK_DURATION_MINUTES : ℚ
  INITIAL_CHECK_DURATION_MINUTES : ℚ
  POWER_ON_THRESHOLD : ℚ
  POWER_ACTIVE_THRESHOLD : ℚ
  CHECK_INTERVAL_SECONDS : ℚ
  KEEP_ALIVE_INTERVAL_SECONDS : ℚ
  SHELLY_CLOUD_BASE_URL : String
  SHELLY_CLOUD_AUTH_KEY : String
  SCENE_IDS : List (String × String)
  inheritedProperties : List (String × String)

/-- Source: `let initialDelay = INITIAL_DELAY_MINUTES * 60 * 1000;` -/
def Config.initialDelay (cfg : Config) : ℚ := cfg.INITIAL_DELAY_MINUTES * 60 * 1000

/-- Source: `let checkDuration = CHECK_DURATION_MINUTES * 60 * 1000;` -/
def Config.checkDuration (cfg : Config) : ℚ := cfg.CHECK_DURATION_MINUTES * 60 * 1000

/-- Source: `let checkInterval = CHECK_INTERVAL_SECONDS * 1000;` -/
def Config.checkInterval (cfg : Config) : ℚ := cfg.CHECK_INTERVAL_SECONDS * 1000

/-- Source: `let initialCheckDuration = INITIAL_CHECK_DURATION_MINUTES * 60 * 1000;` -/
def Config.initialCheckDuration (cfg : Config) : ℚ :=
  cfg.INITIAL_CHECK_DURATION_MINUTES * 60 * 1000

/-- The text a built-in function contributes to a string concatenation. -/
def nativeFunctionText (name : String) : String :=
  "function " ++ name ++ "() \x7b [native code] \x7d"

/-- The properties every object inherits from `Object.prototype` in ECMAScript, each with the text
it contributes to a string concatenation.  All of them are functions or objects, hence truthy. -/
def objectPrototypeProperties : List (String × String) :=
  [("constructor", nativeFunctionText "Object"),
   ("hasOwnProperty", nativeFunctionText "hasOwnProperty"),
   ("isPrototypeOf", nativeFunctionText "isPrototypeOf"),
   ("propertyIsEnumerable", nativeFunctionText "propertyIsEnumerable"),
   ("toLocaleString", nativeFunctionText "toLocaleString"),
   ("toString", nativeFunctionText "toString"),
   ("valueOf", nativeFunctionText "valueOf"),
   ("__proto__", "[object Object]"),
   ("__defineGetter__", nativeFunctionText "__defineGetter__"),
   ("__defineSetter__", nativeFunctionText "__defineSetter__"),
   ("__lookupGetter__", nativeFunctionText "__lookupGetter__"),
   ("__lookupSetter__", nativeFunctionText "__lookupSetter__")]

/-- The values written in the source file (the literal `0.7` as the rational 7/10), on an engine
whose objects inherit the properties of `objectPrototypeProperties`. -/
def defaultConfig : Config where
  ENABLE_KEEP_ALIVE := false
  INITIAL_DELAY_MINUTES := 30
  CHECK_DURATION_MINUTES := 20
  INITIAL_CHECK_DURATION_MINUTES := 15
  POWER_ON_THRESHOLD := 7 / 10
  POWER_ACTIVE_THRESHOLD := 7 / 10
  CHECK_INTERVAL_SECONDS := 60
  KEEP_ALIVE_INTERVAL_SECONDS := 60
  SHELLY_CLOUD_BASE_URL := "https://<YOUR-CLUSTER>.shelly.cloud"
  SHELLY_CLOUD_AUTH_KEY := "YOUR_CLOUD_AUTHORIZATION_KEY_HERE"
  SCENE_IDS :=
    [("MACHINE_ON", "YOUR_SCENE_ID_FOR_MACHINE_ON"),
     ("STANDBY_OFF_DETECTED", "YOUR_SCENE_ID_FOR_STANDBY_OFF_DETECTED"),
     ("MACHINE_AUTO_OFF", "YOUR_SCENE_ID_FOR_MACHINE_AUTO_OFF")]
  inheritedProperties := objectPrototypeProperties

/-- Calls from the script to the host, in the order they are issued. -/
inductive Effect where
  | switchSet (id : Nat) (isOn : Bool)
  | httpGet (url : String)
  | getStatus (id : Nat)
  | printError (msg : String)
  | timerSet (h : Handle) (period : ℚ) (repeating : Bool) (cb : Callback)
  | timerClear (h : Handle)
  deriving DecidableEq, Repr

/-- The global variables of the script, followed by the host's timer table. -/
structure State where
  scriptState : Phase
  initialTimerHandle : Option Handle
  monitoringTimerHandle : Option Handle
  initialCheckTimerHandle : Option Handle
  monitoringStartTime : Int
  keepAliveTimerHandle : Option Handle
  isHeatingConfirmed : Bool
  timers : List TimerEntry
  nextHandle : Handle
  deriving DecidableEq, Repr

/-- The variables as initialised by their `let` declarations, with no timer pending. -/
def State.initial : State where
  scriptState := Phase.IDLE
  initialTimerHandle := none
  monitoringTimerHandle := none
  initialCheckTimerHandle := none
  monitoringStartTime := 0
  keepAliveTimerHandle := none
  isHeatingConfirmed := false
  timers := []
  nextHandle := 1

/-! ## Host timer interface -/

/-- Host call `Timer.set(period, repeating, callback)`: schedules the timer under a fresh handle and
returns that handle. -/
def Timer.set (period : ℚ) (repeating : Bool) (cb : Callback) (s : State) :
    Handle × State × List Effect :=
  (s.nextHandle,
   { s with
     timers := s.timers ++ [TimerEntry.mk s.nextHandle period repeating cb],
     nextHandle := s.nextHandle + 1 },
   [Effect.timerSet s.nextHandle period repeating cb])

/-- Host call `Timer.clear(handle)`: cancels the timer if it is pending. -/
def Timer.clear (h : Handle) (s : State) : State × List Effect :=
  ({ s with timers := s.timers.filter (fun t => t.handle != h) }, [Effect.timerClear h])

/-- Source statement `if (handle) Timer.clear(handle);`. -/
def clearIfSet (handle : Option Handle) (s : State) : State × List Effect :=
  match handle with
  | some h => Timer.clear h s
  | none => (s, [])

/-! ## Cloud helpers -/

/-- Source expression `SCENE_IDS[sceneIdentifier]`, as far as the helpers use its value.  The
lookup finds an own entry of the object first and otherwise the property of that name that the
object inherits.  The result is the text the value contributes to the request URL when the value is
truthy, and `none` when `!sceneId` holds: the name is found nowhere, or its own entry is the empty
string. -/
def sceneIdOf (cfg : Config) (sceneIdentifier : String) : Option String :=
  match cfg.SCENE_IDS.lookup sceneIdentifier with
  | some sceneId => if sceneId = "" then none else some sceneId
  | none => cfg.inheritedProperties.lookup sceneIdentifier

/-- Source: `sendPushNotification(sceneIdentifier)`. -/
def sendPushNotification (cfg : Config) (sceneIdentifier : String) : List Effect :=
  match sceneIdOf cfg sceneIdentifier with
  | none => [Effect.printError ("ERROR: No SceneID found for '" ++ sceneIdentifier ++ "'.")]
  | some sceneId =>
    if cfg.SHELLY_CLOUD_AUTH_KEY = "YOUR_CLOUD_AUTHORIZATION_KEY_HERE"
        ∨ cfg.SHELLY_CLOUD_AUTH_KEY = "" then
      [Effect.printError "ERROR: Cloud authorization key not set or incorrect."]
    else
      [Effect.httpGet (cfg.SHELLY_CLOUD_BASE_URL ++ "/scene/manual_run?id=" ++ sceneId
        ++ "&auth_key=" ++ cfg.SHELLY_CLOUD_AUTH_KEY)]

/-- Source: `controlSceneActivation(sceneIdentifier, enable)`. -/
def controlSceneActivation (cfg : Config) (sceneIdentifier : String) (enable : Bool) :
    List Effect :=
  match sceneIdOf cfg sceneIdentifier with
  | none => [Effect.printError ("ERROR: No SceneID found for '" ++ sceneIdentifier ++ "'.")]
  | some sceneId =>
    if cfg.SHELLY_CLOUD_AUTH_KEY = "YOUR_CLOUD_AUTHORIZATION_KEY_HERE"
        ∨ cfg.SHELLY_CLOUD_AUTH_KEY = "" then
      [Effect.printError "ERROR: Cloud authorization key not set."]
    else
      [Effect.httpGet (cfg.SHELLY_CLOUD_BASE_URL ++ "/scene/enable?id=" ++ sceneId
        ++ "&auth_key=" ++ cfg.SHELLY_CLOUD_AUTH_KEY
        ++ (if enable then "&enabled=true" else "&enabled=false"))]

/-! ## State machine -/

/-- Source: `resetAndStop()`. -/
def resetAndStop (s : State) : State × List Effect :=
  let r1 := clearIfSet s.initialTimerHandle s
  let r2 := clearIfSet r1.1.monitoringTimerHandle r1.1
  let r3 := clearIfSet r2.1.initialCheckTimerHandle r2.1
  ({ r3.1 with
     initialTimerHandle := none,
     monitoringTimerHandle := none,
     initialCheckTimerHandle := none,
     scriptState := Phase.IDLE,
     monitoringStartTime := 0,
     isHeatingConfirmed := false },
   r1.2 ++ r2.2 ++ r3.2)

/-- Source: `handleInitialCheckTimeout()`, the callback of the initial check timer. -/
def handleInitialCheckTimeout (cfg : Config) (s : State) : State × List Effect :=
  if s.isHeatingConfirmed = false then
    let e1 := controlSceneActivation cfg "MORNING_TOGGLE_SCENE" false
    let r2 := resetAndStop s
    ({ r2.1 with initialCheckTimerHandle := none }, e1 ++ r2.2)
  else
    ({ s with initialCheckTimerHandle := none }, [])

/-- Source: the anonymous function passed to `Timer.set(checkInterval, true, ...)` in
`startMonitoring`; `now` is the value of `Date.now()`. -/
def pollTick (cfg : Config) (now : Int) (s : State) : State × List Effect :=
  let elapsed : Int := now - s.monitoringStartTime
  if cfg.checkDuration ≤ (elapsed : ℚ) then
    let e1 := sendPushNotification cfg "STANDBY_OFF_DETECTED"
    let e2 := [Effect.switchSet 0 false]
    let e3 := controlSceneActivation cfg "MORNING_TOGGLE_SCENE" true
    let r4 := resetAndStop s
    (r4.1, e1 ++ e2 ++ e3 ++ r4.2)
  else
    (s, [])

/-- Source: `startMonitoring()`, the callback of the main delay timer; `now` is the value of
`Date.now()`. -/
def startMonitoring (cfg : Config) (now : Int) (s : State) : State × List Effect :=
  let s1 := { s with scriptState := Phase.MONITORING }
  let r2 : State × List Effect :=
    match s1.initialCheckTimerHandle with
    | some h =>
      let r := Timer.clear h s1
      ({ r.1 with initialCheckTimerHandle := none }, r.2)
    | none => (s1, [])
  let e3 := sendPushNotification cfg "MONITORING_ACTIVE"
  let s4 := { r2.1 with monitoringStartTime := now }
  let r5 := Timer.set cfg.checkInterval true Callback.pollTick s4
  ({ r5.2.1 with monitoringTimerHandle := some r5.1 }, r2.2 ++ e3 ++ r5.2.2)

/-- Source: `startAutoOffCycle()`. -/
def startAutoOffCycle (cfg : Config) (s : State) : State × List Effect :=
  let r1 : State × List Effect :=
    if s.scriptState ≠ Phase.IDLE then resetAndStop s else (s, [])
  let s2 := { r1.1 with scriptState := Phase.DELAY, isHeatingConfirmed := false }
  let e3 := sendPushNotification cfg "MACHINE_ON"
  let e4 := controlSceneActivation cfg "MORNING_TOGGLE_SCENE" true
  let r5 := Timer.set cfg.initialDelay false Callback.startMonitoring s2
  let s5 := { r5.2.1 with initialTimerHandle := some r5.1 }
  let r6 := Timer.set cfg.initialCheckDuration false Callback.handleInitialCheckTimeout s5
  ({ r6.2.1 with initialCheckTimerHandle := some r6.1 },
   r1.2 ++ e3 ++ e4 ++ r5.2.2 ++ r6.2.2)

/-- The fields of a status event that the handler reads: `event.component` and `event.delta.apower`
(`none` when the delta carries no `apower`). -/
structure StatusEvent where
  component : String
  apower : Option ℚ
  deriving DecidableEq, Repr

/-- Source: the function registered with `Shelly.addStatusHandler`. -/
def statusHandler (cfg : Config) (event : StatusEvent) (s : State) : State × List Effect :=
  match event.apower with
  | none => (s, [])
  | some currentPower =>
    if event.component = "switch:0" then
      if s.scriptState = Phase.MONITORING ∧ cfg.POWER_ACTIVE_THRESHOLD ≤ currentPower then
        let e1 := [Effect.switchSet 0 false]
        let e2 := sendPushNotification cfg "MACHINE_AUTO_OFF"
        let e3 := controlSceneActivation cfg "MORNING_TOGGLE_SCENE" false
        let r4 := resetAndStop s
        (r4.1, e1 ++ e2 ++ e3 ++ r4.2)
      else if s.scriptState = Phase.DELAY then
        match s.initialCheckTimerHandle with
        | some h =>
          if cfg.POWER_ON_THRESHOLD ≤ currentPower ∧ s.isHeatingConfirmed = false then
            let s1 := { s with isHeatingConfirmed := true }
            let r2 := Timer.clear h s1
            ({ r2.1 with initialCheckTimerHandle := none }, r2.2)
          else
            (s, [])
        | none => (s, [])
      else if cfg.POWER_ON_THRESHOLD ≤ currentPower then
        if s.scriptState = Phase.IDLE then startAutoOffCycle cfg s else (s, [])
      else
        (s, [])
    else
      (s, [])

/-- The power-sample handler: the status handler on an event of component `switch:0` whose delta
carries the power `p`. -/
def onPowerSample (cfg : Config) (p : ℚ) (s : State) : State × List Effect :=
  statusHandler cfg (StatusEvent.mk "switch:0" (some p)) s

/-- Source: the anonymous keep-alive function passed to `Timer.set` in `startKeepAliveTimer`. -/
def keepAliveTick (s : State) : State × List Effect :=
  (s, [Effect.getStatus 0])

/-- Source: `startKeepAliveTimer()`. -/
def startKeepAliveTimer (cfg : Config) (s : State) : State × List Effect :=
  if cfg.ENABLE_KEEP_ALIVE = false then
    (s, [])
  else
    let r := Timer.set (cfg.KEEP_ALIVE_INTERVAL_SECONDS * 1000) true Callback.keepAlive s
    ({ r.2.1 with keepAliveTimerHandle := some r.1 }, r.2.2)

/-- Source: the callback of the `Shelly.GetStatus` call made at script start.  `result` is `none`
when the test `result && result.switch && result.switch[0]` fails, and otherwise holds
`result.switch[0].apower` (`none` when that field is undefined, for which `>=` is false). -/
def startupStatusCallback (cfg : Config) (result : Option (Option ℚ)) (s : State) :
    State × List Effect :=
  match result with
  | some (some currentPower) =>
    if cfg.POWER_ON_THRESHOLD ≤ currentPower then
      startAutoOffCycle cfg s
    else
      ({ s with scriptState := Phase.IDLE }, [])
  | some none => ({ s with scriptState := Phase.IDLE }, [])
  | none => ({ s with scriptState := Phase.IDLE }, [])

/-- The state after the top-level statements of the script have run: the variable declarations, then
`startKeepAliveTimer()` and the `Shelly.GetStatus` request whose callback is delivered later. -/
def init (cfg : Config) : State × List Effect :=
  let r := startKeepAliveTimer cfg State.initial
  (r.1, r.2 ++ [Effect.getStatus 0])

/-! ## Host event loop -/

/-- Runs the callback of a timer. -/
def runCallback (cfg : Config) (cb : Callback) (now : Int) (s : State) : State × List Effect :=
  match cb with
  | Callback.startMonitoring => startMonitoring cfg now s
  | Callback.handleInitialCheckTimeout => handleInitialCheckTimeout cfg s
  | Callback.pollTick => pollTick cfg now s
  | Callback.keepAlive => keepAliveTick s

/-- The host fires the pending timer with handle `h` while the clock reads `now`: a one-shot timer
leaves the table, then its callback runs.  Nothing happens when no timer with that handle is
pending. -/
def fireTimer (cfg : Config) (h : Handle) (now : Int) (s : State) : State × List Effect :=
  match s.timers.find? (fun t => t.handle == h) with
  | none => (s, [])
  | some t =>
    let s1 := if t.repeating then s else { s with timers := s.timers.filter (fun u => u.handle != h) }
    runCallback cfg t.callback now s1

/-- States the script can be in after the top-level statements, any number of status events and any
number of expirations of pending timers.  The callback of the status request made at script start
is covered when it is delivered before every other event. -/
inductive Reachable (cfg : Config) : State → Prop where
  | start : Reachable cfg (init cfg).1
  | startup (result : Option (Option ℚ)) :
      Reachable cfg (startupStatusCallback cfg result (init cfg).1).1
  | status (event : StatusEvent) (s : State) :
      Reachable cfg s → Reachable cfg (statusHandler cfg event s).1
  | timer (h : Handle) (now : Int) (s : State) :
      Reachable cfg s → Reachable cfg (fireTimer cfg h now s).1

/-- Agreement between the script variables and the host's table of pending timers: the check timer
handle is set only in phase `DELAY` before confirmation, the monitoring timer handle is set only in
phase `MONITORING`, and every pending timer whose callback is one of the three cycle callbacks is
the timer recorded in the corresponding handle variable (the main delay timer only in phase
`DELAY`). -/
structure Consistent (s : State) : Prop where
  check_phase : ∀ h, s.initialCheckTimerHandle = some h →
    s.scriptState = Phase.DELAY ∧ s.isHeatingConfirmed = false
  poll_phase : ∀ h, s.monitoringTimerHandle = some h → s.scriptState = Phase.MONITORING
  pending_delay : ∀ t ∈ s.timers, t.callback = Callback.startMonitoring →
    s.initialTimerHandle = some t.handle ∧ s.scriptState = Phase.DELAY ∧ t.repeating = false
  pending_check : ∀ t ∈ s.timers, t.callback = Callback.handleInitialCheckTimeout →
    s.initialCheckTimerHandle = some t.handle ∧ t.repeating = false
  pending_poll : ∀ t ∈ s.timers, t.callback = Callback.pollTick →
    s.monitoringTimerHandle = some t.handle

/-- Feeds a sequence of power samples to the status handler, first sample first, with no timer
expiry in between; the result is the final state. -/
def runSamples (cfg : Config) (ps : List ℚ) (s : State) : State :=
  ps.foldl (fun st p => (onPowerSample cfg p st).1) s

/-- The state of the source configuration in the monitoring phase: the cycle was started and
confirmed, and the main delay timer (handle 1) expired at clock reading 1800000, which armed the
poll timer under handle 3. -/
def exampleMonitoring : State where
  scriptState := Phase.MONITORING
  initialTimerHandle := some 1
  monitoringTimerHandle := some 3
  initialCheckTimerHandle := none
  monitoringStartTime := 1800000
  keepAliveTimerHandle := none
  isHeatingConfirmed := true
  timers := [TimerEntry.mk 3 60000 true Callback.pollTick]
  nextHandle := 4

/-- The state of the source configuration after a cycle was started and then confirmed by a second
sample: the check timer (handle 2) is cancelled, the main delay timer is still pending. -/
def exampleConfirmed : State where
  scriptState := Phase.DELAY
  initialTimerHandle := some 1
  monitoringTimerHandle := none
  initialCheckTimerHandle := none
  monitoringStartTime := 0
  keepAliveTimerHandle := none
  isHeatingConfirmed := true
  timers := [TimerEntry.mk 1 1800000 false Callback.startMonitoring]
  nextHandle := 3

/-- The state one power-on sample after the top-level statements at the source configuration: phase
`DELAY`, the main delay timer pending under handle 1 and the check timer under handle 2. -/
def exampleDelay : State where
  scriptState := Phase.DELAY
  initialTimerHandle := some 1
  monitoringTimerHandle := none
  initialCheckTimerHandle := some 2
  monitoringStartTime := 0
  keepAliveTimerHandle := none
  isHeatingConfirmed := false
  timers := [TimerEntry.mk 1 1800000 false Callback.startMonitoring,
             TimerEntry.mk 2 900000 false Callback.handleInitialCheckTimeout]
  nextHandle := 3

/-! ## Completion callbacks, events and traces -/

/-- Source: the completion callback passed to `Shelly.call("HTTP.GET", ...)` by
`sendPushNotification`.  It prints one of two lines and touches no variable; the error line is
recorded. -/
def sendPushNotificationDone (sceneIdentifier : String) (error_code : Int)
    (error_message : String) (s : State) : State × List Effect :=
  if error_code ≠ 0 then
    (s, [Effect.printError ("ERROR while triggering scene '" ++ sceneIdentifier
      ++ "'. Response from Shelly: " ++ error_message ++ " (Code: " ++ toString error_code
      ++ ")")])
  else
    (s, [])

/-- Source: the completion callback passed to `Shelly.call("HTTP.GET", ...)` by
`controlSceneActivation`.  It prints one of two lines and touches no variable; the error line is
recorded. -/
def controlSceneActivationDone (sceneIdentifier : String) (enable : Bool) (error_code : Int)
    (error_message : String) (s : State) : State × List Effect :=
  if error_code ≠ 0 then
    (s, [Effect.printError ("ERROR while " ++ (if enable then "enabling" else "disabling")
      ++ " scene '" ++ sceneIdentifier ++ "'. Response from Shelly: " ++ error_message
      ++ " (Code: " ++ toString error_code ++ ")")])
  else
    (s, [])

/-- Source: the completion callback passed to `Shelly.call("Switch.Set", ...)` in the poll
callback.  It prints one of two lines and touches no variable; the error line is recorded. -/
def switchSetDone (error_code : Int) (error_message : String) (s : State) :
    State × List Effect :=
  if error_code ≠ 0 then
    (s, [Effect.printError ("ERROR: Could not shut down Shelly: " ++ error_message)])
  else
    (s, [])

/-- The asynchronous calls of the script that carry a completion callback. -/
inductive Completion where
  | notification (sceneIdentifier : String)
  | scene (sceneIdentifier : String) (enable : Bool)
  | switchSet
  deriving DecidableEq, Repr

/-- Everything the host can deliver to the script: a status event, the expiry of the timer with
handle `h` while the clock reads `now`, the result of the status request made at script start, and
the completion of an asynchronous call with its error code and message. -/
inductive Event where
  | status (event : StatusEvent)
  | timer (h : Handle) (now : Int)
  | startup (result : Option (Option ℚ))
  | completed (call : Completion) (error_code : Int) (error_message : String)
  deriving DecidableEq, Repr

/-- Dispatches one event to the callback the script registered for it. -/
def step (cfg : Config) (e : Event) (s : State) : State × List Effect :=
  match e with
  | Event.status event => statusHandler cfg event s
  | Event.timer h now => fireTimer cfg h now s
  | Event.startup result => startupStatusCallback cfg result s
  | Event.completed (Completion.notification sceneIdentifier) error_code error_message =>
    sendPushNotificationDone sceneIdentifier error_code error_message s
  | Event.completed (Completion.scene sceneIdentifier enable) error_code error_message =>
    controlSceneActivationDone sceneIdentifier enable error_code error_message s
  | Event.completed Completion.switchSet error_code error_message =>
    switchSetDone error_code error_message s

/-- Runs a sequence of events, first event first; the result lists, for every event, the state
after it and the calls issued while handling it. -/
def trace (cfg : Config) : List Event → State → List (State × List Effect)
  | [], _ => []
  | e :: es, s => step cfg e s :: trace cfg es (step cfg e s).1

/-- Calls of the notification layer: the HTTP request to the cloud and the logged error. -/
def Effect.isCloud : Effect → Bool
  | Effect.httpGet _ => true
  | Effect.printError _ => true
  | _ => false

/-- Commands to the relay. -/
def Effect.isSwitch : Effect → Bool
  | Effect.switchSet _ _ => true
  | _ => false

/-- What an event delivers to the state machine: the event itself, with the error code and message
of a completion blanked out. -/
def Event.machineInput : Event → Event
  | Event.completed call _ _ => Event.completed call 0 ""
  | e => e

/-- Two configurations that agree on everything but the notification layer (base URL, authorisation
key, scene mapping and the properties the scene lookup can inherit). -/
def SameMachine (a b : Config) : Prop :=
  a.ENABLE_KEEP_ALIVE = b.ENABLE_KEEP_ALIVE
    ∧ a.INITIAL_DELAY_MINUTES = b.INITIAL_DELAY_MINUTES
    ∧ a.CHECK_DURATION_MINUTES = b.CHECK_DURATION_MINUTES
    ∧ a.INITIAL_CHECK_DURATION_MINUTES = b.INITIAL_CHECK_DURATION_MINUTES
    ∧ a.POWER_ON_THRESHOLD = b.POWER_ON_THRESHOLD
    ∧ a.POWER_ACTIVE_THRESHOLD = b.POWER_ACTIVE_THRESHOLD
    ∧ a.CHECK_INTERVAL_SECONDS = b.CHECK_INTERVAL_SECONDS
    ∧ a.KEEP_ALIVE_INTERVAL_SECONDS = b.KEEP_ALIVE_INTERVAL_SECONDS

/-- The phase changes the specification allows for one event: no change, `IDLE` to `DELAY`, `DELAY`
to `MONITORING`, `DELAY` to `IDLE`, `MONITORING` to `IDLE`. -/
def legalTransition (a b : Phase) : Prop :=
  a = b
    ∨ (a = Phase.IDLE ∧ b = Phase.DELAY)
    ∨ (a = Phase.DELAY ∧ b = Phase.MONITORING)
    ∨ (a = Phase.DELAY ∧ b = Phase.IDLE)
    ∨ (a = Phase.MONITORING ∧ b = Phase.IDLE)

instance (a b : Phase) : Decidable (legalTransition a b) := by
  unfold legalTransition
  infer_instance

/-- The source configuration with credentials filled in: a cluster URL and an authorisation key
that is neither empty nor the placeholder.  The scene mapping is the one of the source. -/
def configuredConfig : Config :=
  { defaultConfig with
    SHELLY_CLOUD_BASE_URL := "https://example.shelly.cloud",
    SHELLY_CLOUD_AUTH_KEY := "SECRET" }

/-- The state of the source configuration when the result of the start-up status request arrives
after a first power-on sample and reports a failure: `exampleDelay` with the phase overwritten by
`IDLE`, both cycle timers still pending and their handles still set. -/
def exampleOrphaned : State where
  scriptState := Phase.IDLE
  initialTimerHandle := some 1
  monitoringTimerHandle := none
  initialCheckTimerHandle := some 2
  monitoringStartTime := 0
  keepAliveTimerHandle := none
  isHeatingConfirmed := false
  timers := [TimerEntry.mk 1 1800000 false Callback.startMonitoring,
             TimerEntry.mk 2 900000 false Callback.handleInitialCheckTimeout]
  nextHandle := 3

/-- A configuration whose two thresholds differ: the cycle starts at 0.7 W, the emergency shutdown
triggers at 5 W. -/
def splitThresholdConfig : Config :=
  { defaultConfig with POWER_ACTIVE_THRESHOLD := 5 }

/-- The source configuration with the given base URL and authorisation key; the scene mapping is
the one of the source. -/
def withCredentials (base key : String) : Config :=
  { defaultConfig with SHELLY_CLOUD_BASE_URL := base, SHELLY_CLOUD_AUTH_KEY := key }

/-- Calls that are not part of the notification layer: switch commands, timer calls and status
requests. -/
def Effect.isMachine (e : Effect) : Bool := !e.isCloud

/-- Two handler results that agree on the state and on every call outside the notification
layer. -/
def AgreeOnMachine (r r' : State × List Effect) : Prop :=
  r.1 = r'.1 ∧ r.2.filter Effect.isMachine = r'.2.filter Effect.isMachine

/-! ## Timers firing in the order of their due times -/

/-- The period under which handle `h` is pending in a timer table; 0 when no timer is pending under
it. -/
def periodOf (timers : List TimerEntry) (h : Handle) : ℚ :=
  match timers.find? (fun t => t.handle == h) with
  | some t => t.period
  | none => 0

/-- The due times after a callback that ran at time `τ` and took the state from `old` to `new`: a
timer set by the callback (its handle is at or above `old.nextHandle`) is due one period after `τ`,
every other due time is kept. -/
def dueAfter (due : Handle → ℚ) (τ : ℚ) (old new : State) : Handle → ℚ :=
  fun h => if old.nextHandle ≤ h then τ + periodOf new.timers h else due h

/-- The due times when the timer with handle `h` fires at time `τ`: if it repeats it is due again
one period after `τ`. -/
def dueRearm (due : Handle → ℚ) (τ : ℚ) (s : State) (h : Handle) : Handle → ℚ :=
  fun k => if k = h then τ + periodOf s.timers h else due k

/-- States reachable, together with the due time of every pending timer, when pending timers fire
in the order of their due times: a timer fires only if no pending timer is due earlier.  The time
`τ` at which a callback runs is where the due times of the timers it sets are counted from; nothing
else is assumed about it. -/
inductive OrderedReachable (cfg : Config) : State → (Handle → ℚ) → Prop where
  | start (τ : ℚ) :
      OrderedReachable cfg (init cfg).1 (dueAfter (fun _ => 0) τ State.initial (init cfg).1)
  | startup (τ τ' : ℚ) (result : Option (Option ℚ)) :
      OrderedReachable cfg (startupStatusCallback cfg result (init cfg).1).1
        (dueAfter (dueAfter (fun _ => 0) τ State.initial (init cfg).1) τ' (init cfg).1
          (startupStatusCallback cfg result (init cfg).1).1)
  | status (event : StatusEvent) (τ : ℚ) (s : State) (due : Handle → ℚ) :
      OrderedReachable cfg s due →
      OrderedReachable cfg (statusHandler cfg event s).1
        (dueAfter due τ s (statusHandler cfg event s).1)
  | timer (h : Handle) (now : Int) (τ : ℚ) (s : State) (due : Handle → ℚ) (t : TimerEntry) :
      OrderedReachable cfg s due →
      s.timers.find? (fun u => u.handle == h) = some t →
      (∀ u ∈ s.timers, due h ≤ due u.handle) →
      OrderedReachable cfg (fireTimer cfg h now s).1
        (dueAfter (dueRearm due τ s h) τ s (fireTimer cfg h now s).1)

/-- The invariant behind the ordered runs: handles of pending timers are below `nextHandle` and
pairwise distinct, the monitoring phase is only entered confirmed, and while a cycle is in `DELAY`
and unconfirmed its check timer is pending and due before every pending main delay timer. -/
structure Guarded (s : State) (due : Handle → ℚ) : Prop where
  fresh : ∀ t ∈ s.timers, t.handle < s.nextHandle
  uniq : ∀ t ∈ s.timers, ∀ u ∈ s.timers, t.handle = u.handle → t = u
  confirmed_monitoring : s.scriptState = Phase.MONITORING → s.isHeatingConfirmed = true
  check_first : s.scriptState = Phase.DELAY → s.isHeatingConfirmed = false →
    ∃ tc ∈ s.timers, tc.callback = Callback.handleInitialCheckTimeout
      ∧ ∀ td ∈ s.timers, td.callback = Callback.startMonitoring →
          due tc.handle < due td.handle

/-- Due times along the confirmed cycle of the source configuration: the script starts and the
power-on sample arrives at time 0, the confirming sample at time 1000, and the main delay timer
fires at time 1800000. -/
def exampleDue : Handle → ℚ :=
  dueAfter
    (dueRearm
      (dueAfter
        (dueAfter (dueAfter (fun _ => 0) 0 State.initial State.initial) 0 State.initial
          exampleDelay)
        1000 exampleDelay exampleConfirmed)
      1800000 exampleConfirmed 1)
    1800000 exampleConfirmed exampleMonitoring

/-! ## Basic facts about the timer interface and `resetAndStop` -/

theorem clearIfSet_fst (o : Option Handle) (s : State) :
    (clearIfSet o s).1 = { s with timers := s.timers.filter (fun t => o ≠ some t.handle) } := by
  cases o with
  | none => simp [clearIfSet]
  | some h =>
    simp only [clearIfSet, Timer.clear]
    congr 1
    apply List.filter_congr
    intro t _
    by_cases hh : t.handle = h
    · simp [hh]
    · have : ¬ h = t.handle := fun e => hh e.symm
      simp [hh, this]

theorem clearIfSet_snd (o : Option Handle) (s : State) :
    (clearIfSet o s).2 = o.toList.map Effect.timerClear := by
  cases o <;> simp [clearIfSet, Timer.clear]

/-- The timer table after `resetAndStop`: the entries under none of the three handles. -/
theorem resetAndStop_timers (s : State) :
    (resetAndStop s).1.timers = s.timers.filter (fun t =>
      s.initialTimerHandle ≠ some t.handle ∧ s.monitoringTimerHandle ≠ some t.handle
        ∧ s.initialCheckTimerHandle ≠ some t.handle) := by
  simp only [resetAndStop, clearIfSet_fst, List.filter_filter]
  apply List.filter_congr
  intro t _
  rw [Bool.eq_iff_iff]
  simp only [Bool.and_eq_true, decide_eq_true_eq]
  tauto

theorem resetAndStop_fst (s : State) :
    (resetAndStop s).1 =
      { scriptState := Phase.IDLE,
        initialTimerHandle := none,
        monitoringTimerHandle := none,
        initialCheckTimerHandle := none,
        monitoringStartTime := 0,
        keepAliveTimerHandle := s.keepAliveTimerHandle,
        isHeatingConfirmed := false,
        timers := (resetAndStop s).1.timers,
        nextHandle := s.nextHandle } := by
  simp [resetAndStop, clearIfSet_fst]

theorem resetAndStop_snd (s : State) :
    (resetAndStop s).2 =
      (s.initialTimerHandle.toList ++ s.monitoringTimerHandle.toList
        ++ s.initialCheckTimerHandle.toList).map Effect.timerClear := by
  simp [resetAndStop, clearIfSet_fst, clearIfSet_snd]

/-! ## The handlers, one by one -/

/-- C1: in the monitoring phase a power sample `p` with `p >= POWER_ACTIVE_THRESHOLD` makes the
status handler issue `Switch.Set` with `on: false`, then the `MACHINE_AUTO_OFF` notification, then
the request to disable the scene, then the cancellations of `resetAndStop`, and nothing else; the
state afterwards is the one `resetAndStop` yields: phase `IDLE`, confirmation flag false, monitoring
start time 0 and the three timer handles null.  The monitoring start time of the state is arbitrary,
so the elapsed monitoring time plays no part. -/
theorem emergency_shutdown_on_active_sample (cfg : Config) (s : State) (p : ℚ)
    (hphase : s.scriptState = Phase.MONITORING) (hp : cfg.POWER_ACTIVE_THRESHOLD ≤ p) :
    (onPowerSample cfg p s).2 =
        [Effect.switchSet 0 false]
          ++ sendPushNotification cfg "MACHINE_AUTO_OFF"
          ++ controlSceneActivation cfg "MORNING_TOGGLE_SCENE" false
          ++ (s.initialTimerHandle.toList ++ s.monitoringTimerHandle.toList
                ++ s.initialCheckTimerHandle.toList).map Effect.timerClear
      ∧ (onPowerSample cfg p s).1 = (resetAndStop s).1
      ∧ (onPowerSample cfg p s).1.scriptState = Phase.IDLE
      ∧ (onPowerSample cfg p s).1.isHeatingConfirmed = false
      ∧ (onPowerSample cfg p s).1.monitoringStartTime = 0
      ∧ (onPowerSample cfg p s).1.initialTimerHandle = none
      ∧ (onPowerSample cfg p s).1.monitoringTimerHandle = none
      ∧ (onPowerSample cfg p s).1.initialCheckTimerHandle = none := by
  have h : onPowerSample cfg p s =
      ((resetAndStop s).1,
        [Effect.switchSet 0 false] ++ sendPushNotification cfg "MACHINE_AUTO_OFF"
          ++ controlSceneActivation cfg "MORNING_TOGGLE_SCENE" false ++ (resetAndStop s).2) := by
    simp [onPowerSample, statusHandler, hphase, hp]
  rw [h, resetAndStop_snd]
  refine ⟨rfl, rfl, ?_, ?_, ?_, ?_, ?_, ?_⟩ <;> rw [resetAndStop_fst]

/-- Instance of the emergency shutdown at the source configuration: a 1 W sample in
`exampleMonitoring`. -/
theorem emergency_shutdown_on_active_sample_witness :
    (exampleMonitoring.scriptState = Phase.MONITORING
        ∧ defaultConfig.POWER_ACTIVE_THRESHOLD ≤ (1 : ℚ))
      ∧ (onPowerSample defaultConfig 1 exampleMonitoring).2 =
          [Effect.switchSet 0 false]
            ++ sendPushNotification defaultConfig "MACHINE_AUTO_OFF"
            ++ controlSceneActivation defaultConfig "MORNING_TOGGLE_SCENE" false
            ++ [Effect.timerClear 1, Effect.timerClear 3]
      ∧ (onPowerSample defaultConfig 1 exampleMonitoring).1.scriptState = Phase.IDLE :=
  have h := emergency_shutdown_on_active_sample defaultConfig exampleMonitoring 1 rfl
    (by norm_num [defaultConfig])
  ⟨⟨rfl, by norm_num [defaultConfig]⟩, h.1, h.2.2.1⟩

/-- C2: the poll-tick callback at clock reading `now`, with `elapsed = now - monitoringStartTime`.
If `elapsed >= checkDuration` (inclusive) it issues the `STANDBY_OFF_DETECTED` notification, then
`Switch.Set` with `on: false`, then the request to enable the scene, then the cancellations of
`resetAndStop`, and ends in phase `IDLE` with the three timer handles null.  If
`elapsed < checkDuration` the state is unchanged and nothing is issued. -/
theorem poll_tick_confirms_standby_or_waits (cfg : Config) (s : State) (now : Int)
    (hphase : s.scriptState = Phase.MONITORING) :
    (cfg.checkDuration ≤ ((now - s.monitoringStartTime : Int) : ℚ) →
        (pollTick cfg now s).2 =
            sendPushNotification cfg "STANDBY_OFF_DETECTED"
              ++ [Effect.switchSet 0 false]
              ++ controlSceneActivation cfg "MORNING_TOGGLE_SCENE" true
              ++ (s.initialTimerHandle.toList ++ s.monitoringTimerHandle.toList
                    ++ s.initialCheckTimerHandle.toList).map Effect.timerClear
          ∧ (pollTick cfg now s).1 = (resetAndStop s).1
          ∧ (pollTick cfg now s).1.scriptState = Phase.IDLE
          ∧ (pollTick cfg now s).1.initialTimerHandle = none
          ∧ (pollTick cfg now s).1.monitoringTimerHandle = none
          ∧ (pollTick cfg now s).1.initialCheckTimerHandle = none)
      ∧ (((now - s.monitoringStartTime : Int) : ℚ) < cfg.checkDuration →
          pollTick cfg now s = (s, []))
      ∧ (∀ t, s.timers.find? (fun u => u.handle == t.handle) = some t →
          t.callback = Callback.pollTick → t.repeating = true →
          fireTimer cfg t.handle now s = pollTick cfg now s) := by
  have _ := hphase
  refine ⟨?_, ?_, ?_⟩
  · intro h
    have e : pollTick cfg now s =
        ((resetAndStop s).1,
          sendPushNotification cfg "STANDBY_OFF_DETECTED" ++ [Effect.switchSet 0 false]
            ++ controlSceneActivation cfg "MORNING_TOGGLE_SCENE" true ++ (resetAndStop s).2) := by
      simp only [pollTick, if_pos h]
    rw [e, resetAndStop_snd]
    refine ⟨rfl, rfl, ?_, ?_, ?_, ?_⟩ <;> rw [resetAndStop_fst]
  · intro h
    simp only [pollTick, if_neg (not_le.mpr h)]
  · intro t hf hcb hrep
    simp [fireTimer, hf, hrep, hcb, runCallback]

/-- Instances of the poll tick at the source configuration in `exampleMonitoring` (monitoring
started at 1800000): at clock reading 3000000 exactly `checkDuration` has elapsed and the relay is
switched off; at 2999999 nothing happens. -/
theorem poll_tick_confirms_standby_or_waits_witness :
    (defaultConfig.checkDuration
          ≤ (((3000000 : Int) - exampleMonitoring.monitoringStartTime : Int) : ℚ)
        ∧ ((((2999999 : Int) - exampleMonitoring.monitoringStartTime : Int) : ℚ)
          < defaultConfig.checkDuration))
      ∧ (pollTick defaultConfig 3000000 exampleMonitoring).2 =
          sendPushNotification defaultConfig "STANDBY_OFF_DETECTED"
            ++ [Effect.switchSet 0 false]
            ++ controlSceneActivation defaultConfig "MORNING_TOGGLE_SCENE" true
            ++ [Effect.timerClear 1, Effect.timerClear 3]
      ∧ (pollTick defaultConfig 3000000 exampleMonitoring).1.scriptState = Phase.IDLE
      ∧ pollTick defaultConfig 2999999 exampleMonitoring = (exampleMonitoring, []) :=
  have h1 : defaultConfig.checkDuration
      ≤ (((3000000 : Int) - exampleMonitoring.monitoringStartTime : Int) : ℚ) := by
    norm_num [defaultConfig, Config.checkDuration, exampleMonitoring]
  have h2 : (((2999999 : Int) - exampleMonitoring.monitoringStartTime : Int) : ℚ)
      < defaultConfig.checkDuration := by
    norm_num [defaultConfig, Config.checkDuration, exampleMonitoring]
  have a := (poll_tick_confirms_standby_or_waits defaultConfig exampleMonitoring 3000000 rfl).1 h1
  have b := (poll_tick_confirms_standby_or_waits defaultConfig exampleMonitoring 2999999 rfl).2.1 h2
  ⟨⟨h1, h2⟩, a.1, a.2.2.1, b⟩

/-- C3: a power sample `p` with `p >= POWER_ON_THRESHOLD` in phase `IDLE` with no monitoring timer
armed (in particular in an idle state whose three timer handles are null) starts a cycle.  The handler issues the `MACHINE_ON` notification, then the request to
enable the scene, then the two `Timer.set` calls, and no switch command.  Afterwards the phase is
`DELAY`, the confirmation flag is false, the main timer is pending as a one-shot timer of duration
`initialDelay` whose callback is `startMonitoring`, the check timer is pending as a one-shot timer
of duration `initialCheckDuration` whose callback is `handleInitialCheckTimeout`, and the
monitoring timer handle is still null. -/
theorem power_on_sample_starts_cycle (cfg : Config) (s : State) (p : ℚ)
    (hphase : s.scriptState = Phase.IDLE) (h2 : s.monitoringTimerHandle = none)
    (hp : cfg.POWER_ON_THRESHOLD ≤ p) :
    (onPowerSample cfg p s).2 =
        sendPushNotification cfg "MACHINE_ON"
          ++ controlSceneActivation cfg "MORNING_TOGGLE_SCENE" true
          ++ [Effect.timerSet s.nextHandle cfg.initialDelay false Callback.startMonitoring,
              Effect.timerSet (s.nextHandle + 1) cfg.initialCheckDuration false
                Callback.handleInitialCheckTimeout]
      ∧ (onPowerSample cfg p s).1.scriptState = Phase.DELAY
      ∧ (onPowerSample cfg p s).1.isHeatingConfirmed = false
      ∧ (onPowerSample cfg p s).1.initialTimerHandle = some s.nextHandle
      ∧ (onPowerSample cfg p s).1.initialCheckTimerHandle = some (s.nextHandle + 1)
      ∧ (onPowerSample cfg p s).1.monitoringTimerHandle = none
      ∧ (onPowerSample cfg p s).1.timers =
          s.timers ++
            [TimerEntry.mk s.nextHandle cfg.initialDelay false Callback.startMonitoring,
             TimerEntry.mk (s.nextHandle + 1) cfg.initialCheckDuration false
               Callback.handleInitialCheckTimeout]
      ∧ (onPowerSample cfg p s).1.monitoringStartTime = s.monitoringStartTime
      ∧ (onPowerSample cfg p s).1.keepAliveTimerHandle = s.keepAliveTimerHandle
      ∧ (onPowerSample cfg p s).1.nextHandle = s.nextHandle + 2 := by
  simp [onPowerSample, statusHandler, hphase, hp, startAutoOffCycle, Timer.set, h2]

/-- Instance of the cycle start at the source configuration: a sample of exactly 0.7 W in the state
the script is in after its top-level statements. -/
theorem power_on_sample_starts_cycle_witness :
    ((init defaultConfig).1.scriptState = Phase.IDLE
        ∧ (init defaultConfig).1.initialTimerHandle = none
        ∧ (init defaultConfig).1.monitoringTimerHandle = none
        ∧ (init defaultConfig).1.initialCheckTimerHandle = none
        ∧ defaultConfig.POWER_ON_THRESHOLD ≤ (7 / 10 : ℚ))
      ∧ (onPowerSample defaultConfig (7 / 10) (init defaultConfig).1).1.scriptState = Phase.DELAY
      ∧ (onPowerSample defaultConfig (7 / 10) (init defaultConfig).1).1.timers =
          (init defaultConfig).1.timers ++
            [TimerEntry.mk (init defaultConfig).1.nextHandle defaultConfig.initialDelay false
               Callback.startMonitoring,
             TimerEntry.mk ((init defaultConfig).1.nextHandle + 1)
               defaultConfig.initialCheckDuration false Callback.handleInitialCheckTimeout] :=
  have h := power_on_sample_starts_cycle defaultConfig (init defaultConfig).1 (7 / 10)
    rfl rfl (le_refl _)
  ⟨⟨rfl, rfl, rfl, rfl, le_refl _⟩, h.2.1, h.2.2.2.2.2.2.1⟩

/-- C4: when the confirmation flag is false, `handleInitialCheckTimeout` issues the request to
disable the scene followed only by the cancellations of `resetAndStop` (no switch command), and ends
in phase `IDLE` with the flag false and the three timer handles null.  The main delay timer whose
handle the state held is cancelled: `Timer.clear` is called on it, no timer is pending under that
handle afterwards, and an expiry of that handle no longer runs anything. -/
theorem unconfirmed_check_timeout_aborts (cfg : Config) (s : State)
    (hflag : s.isHeatingConfirmed = false) :
    (handleInitialCheckTimeout cfg s).2 =
        controlSceneActivation cfg "MORNING_TOGGLE_SCENE" false
          ++ (s.initialTimerHandle.toList ++ s.monitoringTimerHandle.toList
                ++ s.initialCheckTimerHandle.toList).map Effect.timerClear
      ∧ (handleInitialCheckTimeout cfg s).1 = (resetAndStop s).1
      ∧ (handleInitialCheckTimeout cfg s).1.scriptState = Phase.IDLE
      ∧ (handleInitialCheckTimeout cfg s).1.isHeatingConfirmed = false
      ∧ (handleInitialCheckTimeout cfg s).1.initialTimerHandle = none
      ∧ (handleInitialCheckTimeout cfg s).1.monitoringTimerHandle = none
      ∧ (handleInitialCheckTimeout cfg s).1.initialCheckTimerHandle = none
      ∧ (∀ h, s.initialTimerHandle = some h →
          Effect.timerClear h ∈ (handleInitialCheckTimeout cfg s).2
            ∧ (∀ t ∈ (handleInitialCheckTimeout cfg s).1.timers, t.handle ≠ h)
            ∧ ∀ now, fireTimer cfg h now (handleInitialCheckTimeout cfg s).1
                = ((handleInitialCheckTimeout cfg s).1, [])) := by
  have e : handleInitialCheckTimeout cfg s =
      ((resetAndStop s).1,
        controlSceneActivation cfg "MORNING_TOGGLE_SCENE" false ++ (resetAndStop s).2) := by
    simp only [handleInitialCheckTimeout, if_pos hflag]
    congr 1
  rw [e, resetAndStop_snd]
  refine ⟨rfl, rfl, ?_, ?_, ?_, ?_, ?_, ?_⟩
  · rw [resetAndStop_fst]
  · rw [resetAndStop_fst]
  · rw [resetAndStop_fst]
  · rw [resetAndStop_fst]
  · rw [resetAndStop_fst]
  · intro h hh
    have hno : ∀ t ∈ (resetAndStop s).1.timers, t.handle ≠ h := by
      intro t ht
      rw [resetAndStop_timers] at ht
      have := (List.mem_filter.mp ht).2
      simp only [decide_eq_true_eq] at this
      intro heq
      exact this.1 (by rw [hh, heq])
    refine ⟨by simp [hh], hno, ?_⟩
    intro now
    have hf : (resetAndStop s).1.timers.find? (fun t => t.handle == h) = none := by
      apply List.find?_eq_none.mpr
      intro t ht
      simpa using hno t ht
    simp only [fireTimer, hf]

/-- Instance of the false start at the source configuration: the check timer expires in
`exampleDelay`, where no sample has confirmed the cycle.  Both pending timers are gone afterwards
and an expiry of handle 1, the main delay timer, runs nothing. -/
theorem unconfirmed_check_timeout_aborts_witness :
    exampleDelay.isHeatingConfirmed = false
      ∧ (handleInitialCheckTimeout defaultConfig exampleDelay).2 =
          controlSceneActivation defaultConfig "MORNING_TOGGLE_SCENE" false
            ++ [Effect.timerClear 1, Effect.timerClear 2]
      ∧ (handleInitialCheckTimeout defaultConfig exampleDelay).1.scriptState = Phase.IDLE
      ∧ (∀ t ∈ (handleInitialCheckTimeout defaultConfig exampleDelay).1.timers, t.handle ≠ 1)
      ∧ (∀ now, fireTimer defaultConfig 1 now (handleInitialCheckTimeout defaultConfig exampleDelay).1
          = ((handleInitialCheckTimeout defaultConfig exampleDelay).1, [])) :=
  have h := unconfirmed_check_timeout_aborts defaultConfig exampleDelay rfl
  have k := h.2.2.2.2.2.2.2 1 rfl
  ⟨rfl, h.1, h.2.2.1, k.2.1, k.2.2⟩

/-- C5: `startMonitoring` at clock reading `now`, from every state.  It cancels the check timer if
its handle is set and nulls that handle, issues the `MONITORING_ACTIVE` notification and then
`Timer.set(checkInterval, true, ...)` for the poll callback, and no switch command.  Afterwards the
phase is `MONITORING`, the monitoring start time is `now`, the monitoring timer handle holds the new
repeating timer of period `checkInterval`, and the confirmation flag is unchanged. -/
theorem startMonitoring_enters_monitoring (cfg : Config) (s : State) (now : Int) :
    (startMonitoring cfg now s).2 =
        s.initialCheckTimerHandle.toList.map Effect.timerClear
          ++ sendPushNotification cfg "MONITORING_ACTIVE"
          ++ [Effect.timerSet s.nextHandle cfg.checkInterval true Callback.pollTick]
      ∧ (startMonitoring cfg now s).1.scriptState = Phase.MONITORING
      ∧ (startMonitoring cfg now s).1.initialCheckTimerHandle = none
      ∧ (startMonitoring cfg now s).1.monitoringStartTime = now
      ∧ (startMonitoring cfg now s).1.monitoringTimerHandle = some s.nextHandle
      ∧ (startMonitoring cfg now s).1.timers =
          s.timers.filter (fun t => s.initialCheckTimerHandle ≠ some t.handle)
            ++ [TimerEntry.mk s.nextHandle cfg.checkInterval true Callback.pollTick]
      ∧ (startMonitoring cfg now s).1.isHeatingConfirmed = s.isHeatingConfirmed
      ∧ (startMonitoring cfg now s).1.initialTimerHandle = s.initialTimerHandle
      ∧ (startMonitoring cfg now s).1.keepAliveTimerHandle = s.keepAliveTimerHandle
      ∧ (startMonitoring cfg now s).1.nextHandle = s.nextHandle + 1 := by
  cases hc : s.initialCheckTimerHandle with
  | none => simp [startMonitoring, hc, Timer.set]
  | some h =>
    have hf : s.timers.filter (fun t => t.handle != h)
        = s.timers.filter (fun t => decide (¬ h = t.handle)) := by
      apply List.filter_congr
      intro t _
      by_cases hh : t.handle = h
      · simp [hh]
      · have : ¬ h = t.handle := fun e => hh e.symm
        simp [hh, this]
    simp [startMonitoring, hc, Timer.set, Timer.clear, hf]

/-- The status handler in phase `DELAY`, case by case. -/
theorem onPowerSample_delay (cfg : Config) (s : State) (p : ℚ)
    (hphase : s.scriptState = Phase.DELAY) :
    onPowerSample cfg p s =
      match s.initialCheckTimerHandle with
      | some h =>
        if cfg.POWER_ON_THRESHOLD ≤ p ∧ s.isHeatingConfirmed = false then
          ({ s with
             isHeatingConfirmed := true,
             initialCheckTimerHandle := none,
             timers := s.timers.filter (fun t => t.handle != h) },
           [Effect.timerClear h])
        else (s, [])
      | none => (s, []) := by
  simp only [onPowerSample, statusHandler, hphase]
  cases s.initialCheckTimerHandle <;> simp [Timer.clear]

/-- C6: a power sample `p` in phase `DELAY`.  When `p >= POWER_ON_THRESHOLD`, the confirmation flag
is false and the check timer handle is set, the handler sets the flag, cancels that timer and nulls
its handle, and changes nothing else.  In every other case the state is unchanged and nothing is
issued; in particular every sample after the confirmation is inert.  In both cases the phase stays
`DELAY`, the main timer handle is unchanged, every pending timer under another handle than the check
timer's stays pending, and the only call issued, if any, is a `Timer.clear`. -/
theorem delay_sample_confirms_once (cfg : Config) (s : State) (p : ℚ)
    (hphase : s.scriptState = Phase.DELAY) :
    (∀ h, cfg.POWER_ON_THRESHOLD ≤ p → s.isHeatingConfirmed = false →
        s.initialCheckTimerHandle = some h →
        onPowerSample cfg p s =
          ({ s with
             isHeatingConfirmed := true,
             initialCheckTimerHandle := none,
             timers := s.timers.filter (fun t => t.handle != h) },
           [Effect.timerClear h]))
      ∧ (¬ (cfg.POWER_ON_THRESHOLD ≤ p ∧ s.isHeatingConfirmed = false
              ∧ s.initialCheckTimerHandle ≠ none) →
          onPowerSample cfg p s = (s, []))
      ∧ (s.isHeatingConfirmed = true → onPowerSample cfg p s = (s, []))
      ∧ (onPowerSample cfg p s).1.scriptState = Phase.DELAY
      ∧ (onPowerSample cfg p s).1.initialTimerHandle = s.initialTimerHandle
      ∧ (∀ t ∈ s.timers, s.initialCheckTimerHandle ≠ some t.handle →
          t ∈ (onPowerSample cfg p s).1.timers)
      ∧ (∀ e ∈ (onPowerSample cfg p s).2, ∃ h, e = Effect.timerClear h) := by
  rw [onPowerSample_delay cfg s p hphase]
  refine ⟨?_, ?_, ?_, ?_, ?_, ?_, ?_⟩
  · intro h hp hflag hh
    simp [hh, hp, hflag]
  · intro hn
    cases hh : s.initialCheckTimerHandle with
    | none => rfl
    | some h =>
      have : ¬ (cfg.POWER_ON_THRESHOLD ≤ p ∧ s.isHeatingConfirmed = false) := by
        intro hc
        exact hn ⟨hc.1, hc.2, by simp [hh]⟩
      simp only [if_neg this]
  · intro hflag
    cases hh : s.initialCheckTimerHandle with
    | none => rfl
    | some h => simp [hflag]
  · cases hh : s.initialCheckTimerHandle with
    | none => exact hphase
    | some h =>
      by_cases hc : cfg.POWER_ON_THRESHOLD ≤ p ∧ s.isHeatingConfirmed = false
      · simp only [if_pos hc, hphase]
      · simp only [if_neg hc, hphase]
  · cases hh : s.initialCheckTimerHandle with
    | none => rfl
    | some h =>
      by_cases hc : cfg.POWER_ON_THRESHOLD ≤ p ∧ s.isHeatingConfirmed = false
      · simp only [if_pos hc]
      · simp only [if_neg hc]
  · intro t ht hne
    cases hh : s.initialCheckTimerHandle with
    | none => exact ht
    | some h =>
      by_cases hc : cfg.POWER_ON_THRESHOLD ≤ p ∧ s.isHeatingConfirmed = false
      · simp only [if_pos hc]
        apply List.mem_filter.mpr
        refine ⟨ht, ?_⟩
        have : t.handle ≠ h := by
          intro e
          exact hne (by rw [hh, e])
        simpa using this
      · simp only [if_neg hc]
        exact ht
  · intro e he
    cases hh : s.initialCheckTimerHandle with
    | none => simp [hh] at he
    | some h =>
      by_cases hc : cfg.POWER_ON_THRESHOLD ≤ p ∧ s.isHeatingConfirmed = false
      · simp only [hh, if_pos hc, List.mem_singleton] at he
        exact ⟨h, he⟩
      · simp [hh, if_neg hc] at he

/-- Instances of the confirmation at the source configuration in `exampleDelay`: a sample of
exactly 0.7 W confirms the cycle and cancels the check timer (handle 2) while the main delay timer
stays pending; a sample of 0 W changes nothing. -/
theorem delay_sample_confirms_once_witness :
    (exampleDelay.scriptState = Phase.DELAY
        ∧ defaultConfig.POWER_ON_THRESHOLD ≤ (7 / 10 : ℚ)
        ∧ exampleDelay.isHeatingConfirmed = false
        ∧ exampleDelay.initialCheckTimerHandle = some 2
        ∧ ¬ (defaultConfig.POWER_ON_THRESHOLD ≤ (0 : ℚ) ∧ exampleDelay.isHeatingConfirmed = false
              ∧ exampleDelay.initialCheckTimerHandle ≠ none))
      ∧ onPowerSample defaultConfig (7 / 10) exampleDelay =
          ({ exampleDelay with
             isHeatingConfirmed := true,
             initialCheckTimerHandle := none,
             timers := exampleDelay.timers.filter (fun t => t.handle != 2) },
           [Effect.timerClear 2])
      ∧ onPowerSample defaultConfig 0 exampleDelay = (exampleDelay, [])
      ∧ TimerEntry.mk 1 1800000 false Callback.startMonitoring
          ∈ (onPowerSample defaultConfig (7 / 10) exampleDelay).1.timers :=
  have hlow : ¬ (defaultConfig.POWER_ON_THRESHOLD ≤ (0 : ℚ)
      ∧ exampleDelay.isHeatingConfirmed = false
      ∧ exampleDelay.initialCheckTimerHandle ≠ none) := by
    norm_num [defaultConfig]
  have a := delay_sample_confirms_once defaultConfig exampleDelay (7 / 10) rfl
  have b := delay_sample_confirms_once defaultConfig exampleDelay 0 rfl
  ⟨⟨rfl, le_refl _, rfl, rfl, hlow⟩, a.1 2 (le_refl _) rfl rfl, b.2.1 hlow,
    a.2.2.2.2.2.1 _ (by simp [exampleDelay]) (by simp [exampleDelay])⟩

/-- The status handler in phase `IDLE`, case by case. -/
theorem onPowerSample_idle (cfg : Config) (s : State) (p : ℚ)
    (hphase : s.scriptState = Phase.IDLE) :
    onPowerSample cfg p s =
      if cfg.POWER_ON_THRESHOLD ≤ p then startAutoOffCycle cfg s else (s, []) := by
  simp [onPowerSample, statusHandler, hphase]

theorem startAutoOffCycle_phase (cfg : Config) (s : State) :
    (startAutoOffCycle cfg s).1.scriptState = Phase.DELAY := by
  simp [startAutoOffCycle, Timer.set]

theorem onPowerSample_delay_phase (cfg : Config) (s : State) (p : ℚ)
    (hphase : s.scriptState = Phase.DELAY) :
    (onPowerSample cfg p s).1.scriptState = Phase.DELAY := by
  rw [onPowerSample_delay cfg s p hphase]
  cases s.initialCheckTimerHandle with
  | none => exact hphase
  | some h =>
    by_cases hc : cfg.POWER_ON_THRESHOLD ≤ p ∧ s.isHeatingConfirmed = false
    · simp only [if_pos hc, hphase]
    · simp only [if_neg hc, hphase]

/-- Samples alone never leave phase `DELAY`. -/
theorem runSamples_delay (cfg : Config) (ps : List ℚ) (s : State)
    (hphase : s.scriptState = Phase.DELAY) :
    (runSamples cfg ps s).scriptState = Phase.DELAY := by
  induction ps generalizing s with
  | nil => exact hphase
  | cons p ps ih =>
    simp only [runSamples, List.foldl_cons]
    exact ih _ (onPowerSample_delay_phase cfg s p hphase)

/-- From phase `IDLE`, samples alone lead to `DELAY` when one of them reaches the power-on
threshold and leave the state untouched otherwise. -/
theorem runSamples_idle (cfg : Config) (ps : List ℚ) (s : State)
    (hphase : s.scriptState = Phase.IDLE) :
    ((∃ p ∈ ps, cfg.POWER_ON_THRESHOLD ≤ p) → (runSamples cfg ps s).scriptState = Phase.DELAY)
      ∧ ((¬ ∃ p ∈ ps, cfg.POWER_ON_THRESHOLD ≤ p) → runSamples cfg ps s = s) := by
  induction ps generalizing s with
  | nil => simp [runSamples]
  | cons p ps ih =>
    have hstep : runSamples cfg (p :: ps) s = runSamples cfg ps (onPowerSample cfg p s).1 := rfl
    rw [hstep, onPowerSample_idle cfg s p hphase]
    by_cases hp : cfg.POWER_ON_THRESHOLD ≤ p
    · simp only [if_pos hp]
      refine ⟨fun _ => runSamples_delay cfg ps _ (startAutoOffCycle_phase cfg s), ?_⟩
      intro hn
      exact absurd ⟨p, List.mem_cons_self _ _, hp⟩ hn
    · simp only [if_neg hp]
      refine ⟨?_, ?_⟩
      · rintro ⟨q, hq, hqp⟩
        rcases List.mem_cons.mp hq with rfl | hq
        · exact absurd hqp hp
        · exact (ih s hphase).1 ⟨q, hq, hqp⟩
      · intro hn
        apply (ih s hphase).2
        rintro ⟨q, hq, hqp⟩
        exact hn ⟨q, List.mem_cons_of_mem _ hq, hqp⟩

/-- C7: feed any finite sequence of power samples to the status handler, starting from the state
after the top-level statements (phase `IDLE`) and with no timer expiry in between.  The final phase
is `DELAY` if and only if some sample is `>= POWER_ON_THRESHOLD`, and `IDLE` otherwise.  The
comparison is inclusive: a sample equal to `POWER_ON_THRESHOLD` starts the cycle.  A sample below
the threshold in phase `IDLE` leaves the state unchanged and issues nothing. -/
theorem samples_reach_delay_iff_power_on (cfg : Config) (ps : List ℚ) :
    ((runSamples cfg ps (init cfg).1).scriptState = Phase.DELAY
        ↔ ∃ p ∈ ps, cfg.POWER_ON_THRESHOLD ≤ p)
      ∧ ((¬ ∃ p ∈ ps, cfg.POWER_ON_THRESHOLD ≤ p) →
          (runSamples cfg ps (init cfg).1).scriptState = Phase.IDLE)
      ∧ (onPowerSample cfg cfg.POWER_ON_THRESHOLD (init cfg).1).1.scriptState = Phase.DELAY
      ∧ (∀ (s : State) (p : ℚ), s.scriptState = Phase.IDLE → p < cfg.POWER_ON_THRESHOLD →
          onPowerSample cfg p s = (s, [])) := by
  have hinit : (init cfg).1.scriptState = Phase.IDLE := by
    simp only [init, startKeepAliveTimer]
    split <;> simp [State.initial, Timer.set]
  have h := runSamples_idle cfg ps (init cfg).1 hinit
  refine ⟨⟨?_, h.1⟩, ?_, ?_, ?_⟩
  · intro hd
    by_contra hn
    rw [h.2 hn, hinit] at hd
    exact absurd hd (by decide)
  · intro hn
    rw [h.2 hn, hinit]
  · rw [onPowerSample_idle cfg _ _ hinit, if_pos (le_refl _)]
    exact startAutoOffCycle_phase cfg _
  · intro s p hs hp
    rw [onPowerSample_idle cfg s p hs, if_neg (not_le.mpr hp)]

/-- Instance at the source configuration: the samples 0.2 W, 0.69 W stay idle, and the sample
0.3 W below the threshold is inert in the state after the top-level statements. -/
theorem samples_reach_delay_iff_power_on_witness :
    ((¬ ∃ p ∈ [(1 / 5 : ℚ), 69 / 100], defaultConfig.POWER_ON_THRESHOLD ≤ p)
        ∧ (init defaultConfig).1.scriptState = Phase.IDLE
        ∧ (3 / 10 : ℚ) < defaultConfig.POWER_ON_THRESHOLD)
      ∧ (runSamples defaultConfig [1 / 5, 69 / 100] (init defaultConfig).1).scriptState
          = Phase.IDLE
      ∧ ((runSamples defaultConfig [1 / 5, 7 / 10, 0] (init defaultConfig).1).scriptState
            = Phase.DELAY
          ↔ ∃ p ∈ [(1 / 5 : ℚ), 7 / 10, 0], defaultConfig.POWER_ON_THRESHOLD ≤ p)
      ∧ onPowerSample defaultConfig (3 / 10) (init defaultConfig).1
          = ((init defaultConfig).1, []) :=
  have hn : ¬ ∃ p ∈ [(1 / 5 : ℚ), 69 / 100], defaultConfig.POWER_ON_THRESHOLD ≤ p := by
    norm_num [defaultConfig]
  have hlt : (3 / 10 : ℚ) < defaultConfig.POWER_ON_THRESHOLD := by
    norm_num [defaultConfig]
  ⟨⟨hn, rfl, hlt⟩,
    (samples_reach_delay_iff_power_on defaultConfig [1 / 5, 69 / 100]).2.1 hn,
    (samples_reach_delay_iff_power_on defaultConfig [1 / 5, 7 / 10, 0]).1,
    (samples_reach_delay_iff_power_on defaultConfig []).2.2.2 _ _ rfl hlt⟩

/-- C8: `resetAndStop` from every state.  The script variables afterwards are always the same:
phase `IDLE`, confirmation flag false, monitoring start time 0 and the three timer handles null.
Every handle that was set is cancelled: `Timer.clear` is called on it and no timer is pending under
it afterwards.  A second call changes nothing and issues no call at all, so
`resetAndStop (resetAndStop s) = resetAndStop s` on states. -/
theorem resetAndStop_total_idempotent (s : State) :
    (resetAndStop s).1.scriptState = Phase.IDLE
      ∧ (resetAndStop s).1.isHeatingConfirmed = false
      ∧ (resetAndStop s).1.monitoringStartTime = 0
      ∧ (resetAndStop s).1.initialTimerHandle = none
      ∧ (resetAndStop s).1.monitoringTimerHandle = none
      ∧ (resetAndStop s).1.initialCheckTimerHandle = none
      ∧ (∀ h, (s.initialTimerHandle = some h ∨ s.monitoringTimerHandle = some h
                ∨ s.initialCheckTimerHandle = some h) →
          Effect.timerClear h ∈ (resetAndStop s).2
            ∧ ∀ t ∈ (resetAndStop s).1.timers, t.handle ≠ h)
      ∧ (resetAndStop (resetAndStop s).1).1 = (resetAndStop s).1
      ∧ (resetAndStop (resetAndStop s).1).2 = [] := by
  refine ⟨?_, ?_, ?_, ?_, ?_, ?_, ?_, ?_, ?_⟩
  · rw [resetAndStop_fst]
  · rw [resetAndStop_fst]
  · rw [resetAndStop_fst]
  · rw [resetAndStop_fst]
  · rw [resetAndStop_fst]
  · rw [resetAndStop_fst]
  · intro h hh
    refine ⟨?_, ?_⟩
    · rw [resetAndStop_snd]
      rcases hh with hh | hh | hh <;> simp [hh]
    · intro t ht heq
      rw [resetAndStop_timers] at ht
      have := (List.mem_filter.mp ht).2
      simp only [decide_eq_true_eq] at this
      rcases hh with hh | hh | hh
      · exact this.1 (by rw [hh, heq])
      · exact this.2.1 (by rw [hh, heq])
      · exact this.2.2 (by rw [hh, heq])
  · have e : (resetAndStop (resetAndStop s).1).1.timers = (resetAndStop s).1.timers := by
      rw [resetAndStop_timers (resetAndStop s).1]
      apply List.filter_eq_self.mpr
      intro t _
      rw [resetAndStop_fst]
      simp
    rw [resetAndStop_fst (resetAndStop s).1, e]
    rw [resetAndStop_fst s]
  · rw [resetAndStop_snd, resetAndStop_fst]
    rfl

/-- Instance of `resetAndStop` in `exampleDelay`: handles 1 and 2 are cancelled and no timer is
left pending. -/
theorem resetAndStop_total_idempotent_witness :
    (exampleDelay.initialTimerHandle = some 1 ∨ exampleDelay.monitoringTimerHandle = some 1
        ∨ exampleDelay.initialCheckTimerHandle = some 1)
      ∧ Effect.timerClear 1 ∈ (resetAndStop exampleDelay).2
      ∧ (∀ t ∈ (resetAndStop exampleDelay).1.timers, t.handle ≠ 1)
      ∧ (resetAndStop (resetAndStop exampleDelay).1).1 = (resetAndStop exampleDelay).1
      ∧ (resetAndStop (resetAndStop exampleDelay).1).2 = [] :=
  have h := resetAndStop_total_idempotent exampleDelay
  have k := h.2.2.2.2.2.2.1 1 (Or.inl rfl)
  ⟨Or.inl rfl, k.1, k.2, h.2.2.2.2.2.2.2.1, h.2.2.2.2.2.2.2.2⟩

/-! ## Invariants of the reachable states -/

theorem mem_resetAndStop_timers (s : State) (t : TimerEntry) :
    t ∈ (resetAndStop s).1.timers ↔
      t ∈ s.timers ∧ s.initialTimerHandle ≠ some t.handle
        ∧ s.monitoringTimerHandle ≠ some t.handle
        ∧ s.initialCheckTimerHandle ≠ some t.handle := by
  rw [resetAndStop_timers, List.mem_filter]
  simp only [decide_eq_true_eq]

theorem mem_filter_handle (l : List TimerEntry) (h : Handle) (t : TimerEntry) :
    t ∈ l.filter (fun u => u.handle != h) ↔ t ∈ l ∧ t.handle ≠ h := by
  rw [List.mem_filter]
  simp

theorem resetAndStop_consistent (s : State) (hc : Consistent s) :
    Consistent (resetAndStop s).1 := by
  constructor
  · intro h hh
    rw [resetAndStop_fst] at hh
    exact absurd hh (by simp)
  · intro h hh
    rw [resetAndStop_fst] at hh
    exact absurd hh (by simp)
  · intro t ht hcb
    have hm := (mem_resetAndStop_timers s t).mp ht
    exact absurd (hc.pending_delay t hm.1 hcb).1 hm.2.1
  · intro t ht hcb
    have hm := (mem_resetAndStop_timers s t).mp ht
    exact absurd (hc.pending_check t hm.1 hcb).1 hm.2.2.2
  · intro t ht hcb
    have hm := (mem_resetAndStop_timers s t).mp ht
    exact absurd (hc.pending_poll t hm.1 hcb) hm.2.2.1

/-- Removing pending timers from the table keeps the agreement. -/
theorem consistent_filter (s : State) (f : TimerEntry → Bool) (hc : Consistent s) :
    Consistent { s with timers := s.timers.filter f } := by
  constructor
  · exact hc.check_phase
  · exact hc.poll_phase
  · intro t ht hcb
    exact hc.pending_delay t (List.mem_filter.mp ht).1 hcb
  · intro t ht hcb
    exact hc.pending_check t (List.mem_filter.mp ht).1 hcb
  · intro t ht hcb
    exact hc.pending_poll t (List.mem_filter.mp ht).1 hcb

theorem startAutoOffCycle_fst_of_idle (cfg : Config) (r : State)
    (hidle : r.scriptState = Phase.IDLE) :
    (startAutoOffCycle cfg r).1 =
      { r with
        scriptState := Phase.DELAY,
        isHeatingConfirmed := false,
        initialTimerHandle := some r.nextHandle,
        initialCheckTimerHandle := some (r.nextHandle + 1),
        timers := r.timers ++
          [TimerEntry.mk r.nextHandle cfg.initialDelay false Callback.startMonitoring,
           TimerEntry.mk (r.nextHandle + 1) cfg.initialCheckDuration false
             Callback.handleInitialCheckTimeout],
        nextHandle := r.nextHandle + 2 } := by
  simp [startAutoOffCycle, hidle, Timer.set]

/-- Outside phase `IDLE` the cycle start first resets, then proceeds as from the reset state. -/
theorem startAutoOffCycle_restart (cfg : Config) (s : State)
    (hbusy : s.scriptState ≠ Phase.IDLE) :
    (startAutoOffCycle cfg s).1 = (startAutoOffCycle cfg (resetAndStop s).1).1 := by
  have hri : (resetAndStop s).1.scriptState = Phase.IDLE := by rw [resetAndStop_fst]
  simp [startAutoOffCycle, hbusy, hri, Timer.set]

theorem startAutoOffCycle_consistent (cfg : Config) (s : State) (hc : Consistent s) :
    Consistent (startAutoOffCycle cfg s).1 := by
  -- the state after the optional restart is consistent and has no cycle timer pending
  have key : ∀ r : State, Consistent r → r.scriptState = Phase.IDLE →
      Consistent
        { r with
          scriptState := Phase.DELAY,
          isHeatingConfirmed := false,
          initialTimerHandle := some r.nextHandle,
          initialCheckTimerHandle := some (r.nextHandle + 1),
          timers := r.timers ++
            [TimerEntry.mk r.nextHandle cfg.initialDelay false Callback.startMonitoring,
             TimerEntry.mk (r.nextHandle + 1) cfg.initialCheckDuration false
               Callback.handleInitialCheckTimeout],
          nextHandle := r.nextHandle + 2 } := by
    intro r hr hidle
    constructor
    · intro h _
      exact ⟨rfl, rfl⟩
    · intro h hh
      have := hr.poll_phase h hh
      rw [hidle] at this
      exact absurd this (by decide)
    · intro t ht hcb
      simp only [List.mem_append, List.mem_cons, List.mem_singleton, List.not_mem_nil,
        or_false] at ht
      rcases ht with ht | rfl | rfl
      · have := (hr.pending_delay t ht hcb).2.1
        rw [hidle] at this
        exact absurd this (by decide)
      · exact ⟨rfl, rfl, rfl⟩
      · exact absurd hcb (by simp)
    · intro t ht hcb
      simp only [List.mem_append, List.mem_cons, List.mem_singleton, List.not_mem_nil,
        or_false] at ht
      rcases ht with ht | rfl | rfl
      · have := (hr.check_phase _ (hr.pending_check t ht hcb).1).1
        rw [hidle] at this
        exact absurd this (by decide)
      · exact absurd hcb (by simp)
      · exact ⟨rfl, rfl⟩
    · intro t ht hcb
      simp only [List.mem_append, List.mem_cons, List.mem_singleton, List.not_mem_nil,
        or_false] at ht
      rcases ht with ht | rfl | rfl
      · have := hr.poll_phase _ (hr.pending_poll t ht hcb)
        rw [hidle] at this
        exact absurd this (by decide)
      · exact absurd hcb (by simp)
      · exact absurd hcb (by simp)
  by_cases hidle : s.scriptState = Phase.IDLE
  · rw [startAutoOffCycle_fst_of_idle cfg s hidle]
    exact key s hc hidle
  · have hr := resetAndStop_consistent s hc
    have hri : (resetAndStop s).1.scriptState = Phase.IDLE := by rw [resetAndStop_fst]
    rw [startAutoOffCycle_restart cfg s hidle, startAutoOffCycle_fst_of_idle cfg _ hri]
    exact key _ hr hri

theorem statusHandler_consistent (cfg : Config) (event : StatusEvent) (s : State)
    (hc : Consistent s) : Consistent (statusHandler cfg event s).1 := by
  unfold statusHandler
  cases event.apower with
  | none => exact hc
  | some currentPower =>
    simp only
    split
    · split
      · exact resetAndStop_consistent s hc
      · split
        · cases hh : s.initialCheckTimerHandle with
          | none => exact hc
          | some h =>
            simp only
            split
            · constructor
              · intro k hk
                exact absurd hk (by simp [Timer.clear])
              · exact hc.poll_phase
              · intro t ht hcb
                have hm := (mem_filter_handle s.timers h t).mp ht
                exact hc.pending_delay t hm.1 hcb
              · intro t ht hcb
                have hm := (mem_filter_handle s.timers h t).mp ht
                have := (hc.pending_check t hm.1 hcb).1
                rw [hh] at this
                exact absurd (Option.some.inj this).symm hm.2
              · intro t ht hcb
                have hm := (mem_filter_handle s.timers h t).mp ht
                exact hc.pending_poll t hm.1 hcb
            · exact hc
        · split
          · split
            · exact startAutoOffCycle_consistent cfg s hc
            · exact hc
          · exact hc
    · exact hc

theorem pollTick_consistent (cfg : Config) (now : Int) (s : State) (hc : Consistent s) :
    Consistent (pollTick cfg now s).1 := by
  unfold pollTick
  simp only
  split
  · exact resetAndStop_consistent s hc
  · exact hc

theorem handleInitialCheckTimeout_consistent (cfg : Config) (s : State) (hc : Consistent s)
    (hgone : ∀ t ∈ s.timers, t.callback ≠ Callback.handleInitialCheckTimeout) :
    Consistent (handleInitialCheckTimeout cfg s).1 := by
  unfold handleInitialCheckTimeout
  split
  · have e : ({ (resetAndStop s).1 with initialCheckTimerHandle := none } : State)
        = (resetAndStop s).1 := by
      rw [resetAndStop_fst]
    simp only
    rw [e]
    exact resetAndStop_consistent s hc
  · constructor
    · intro h hh
      exact absurd hh (by simp)
    · exact hc.poll_phase
    · exact hc.pending_delay
    · intro t ht hcb
      exact absurd hcb (hgone t ht)
    · exact hc.pending_poll

theorem startMonitoring_consistent (cfg : Config) (now : Int) (s : State) (hc : Consistent s)
    (hgone : ∀ t ∈ s.timers, t.callback ≠ Callback.startMonitoring)
    (hnopoll : ∀ t ∈ s.timers, t.callback ≠ Callback.pollTick) :
    Consistent (startMonitoring cfg now s).1 := by
  have hC5 : (startMonitoring cfg now s).1.timers =
      s.timers.filter (fun t => s.initialCheckTimerHandle ≠ some t.handle)
        ++ [TimerEntry.mk s.nextHandle cfg.checkInterval true Callback.pollTick] := by
    cases hh : s.initialCheckTimerHandle with
    | none => simp [startMonitoring, hh, Timer.set]
    | some h =>
      have hf : s.timers.filter (fun t => t.handle != h)
          = s.timers.filter (fun t => decide (¬ h = t.handle)) := by
        apply List.filter_congr
        intro t _
        by_cases hx : t.handle = h
        · simp [hx]
        · have : ¬ h = t.handle := fun e => hx e.symm
          simp [hx, this]
      simp [startMonitoring, hh, Timer.set, Timer.clear, hf]
  have hvars : (startMonitoring cfg now s).1.scriptState = Phase.MONITORING
      ∧ (startMonitoring cfg now s).1.initialCheckTimerHandle = none
      ∧ (startMonitoring cfg now s).1.monitoringTimerHandle = some s.nextHandle := by
    cases hh : s.initialCheckTimerHandle <;> simp [startMonitoring, hh, Timer.set, Timer.clear]
  have hmem : ∀ t ∈ (startMonitoring cfg now s).1.timers,
      (t ∈ s.timers ∧ s.initialCheckTimerHandle ≠ some t.handle)
        ∨ t = TimerEntry.mk s.nextHandle cfg.checkInterval true Callback.pollTick := by
    intro t ht
    rw [hC5, List.mem_append, List.mem_filter] at ht
    rcases ht with ht | ht
    · left
      exact ⟨ht.1, by simpa using ht.2⟩
    · right
      simpa using ht
  constructor
  · intro h hh
    rw [hvars.2.1] at hh
    exact absurd hh (by simp)
  · intro h _
    exact hvars.1
  · intro t ht hcb
    rcases hmem t ht with hm | rfl
    · exact absurd hcb (hgone t hm.1)
    · exact absurd hcb (by simp)
  · intro t ht hcb
    rcases hmem t ht with hm | rfl
    · exact absurd (hc.pending_check t hm.1 hcb).1 hm.2
    · exact absurd hcb (by simp)
  · intro t ht hcb
    rcases hmem t ht with hm | rfl
    · exact absurd hcb (hnopoll t hm.1)
    · exact hvars.2.2

theorem fireTimer_consistent (cfg : Config) (h : Handle) (now : Int) (s : State)
    (hc : Consistent s) : Consistent (fireTimer cfg h now s).1 := by
  unfold fireTimer
  cases hf : s.timers.find? (fun t => t.handle == h) with
  | none => exact hc
  | some t =>
    have hmem : t ∈ s.timers := List.mem_of_find?_eq_some hf
    have hth : t.handle = h := by simpa using List.find?_some hf
    have hs1 : Consistent
        (if t.repeating then s
          else { s with timers := s.timers.filter (fun u => u.handle != h) }) := by
      split
      · exact hc
      · exact consistent_filter s _ hc
    simp only
    cases hcb : t.callback with
    | startMonitoring =>
      have hd := hc.pending_delay t hmem hcb
      simp only [runCallback, hd.2.2, Bool.false_eq_true, if_false]
      rw [hth] at hd
      apply startMonitoring_consistent cfg now _ (consistent_filter s _ hc)
      · intro u hu hucb
        have hm := (mem_filter_handle s.timers h u).mp hu
        have := (hc.pending_delay u hm.1 hucb).1
        rw [hd.1] at this
        exact hm.2 (Option.some.inj this).symm
      · intro u hu hucb
        have hm := (mem_filter_handle s.timers h u).mp hu
        have := hc.poll_phase _ (hc.pending_poll u hm.1 hucb)
        rw [hd.2.1] at this
        exact absurd this (by decide)
    | handleInitialCheckTimeout =>
      have hd := hc.pending_check t hmem hcb
      simp only [runCallback, hd.2, Bool.false_eq_true, if_false]
      rw [hth] at hd
      apply handleInitialCheckTimeout_consistent cfg _ (consistent_filter s _ hc)
      intro u hu hucb
      have hm := (mem_filter_handle s.timers h u).mp hu
      have := (hc.pending_check u hm.1 hucb).1
      rw [hd.1] at this
      exact hm.2 (Option.some.inj this).symm
    | pollTick =>
      simp only [runCallback]
      exact pollTick_consistent cfg now _ hs1
    | keepAlive =>
      simp only [runCallback, keepAliveTick]
      exact hs1

theorem startupStatusCallback_consistent (cfg : Config) (result : Option (Option ℚ)) (s : State)
    (hc : Consistent s) (hidle : s.scriptState = Phase.IDLE) :
    Consistent (startupStatusCallback cfg result s).1 := by
  have hsame : ({ s with scriptState := Phase.IDLE } : State) = s := by
    rw [← hidle]
  unfold startupStatusCallback
  split
  · split
    · exact startAutoOffCycle_consistent cfg s hc
    · simp only
      rw [hsame]
      exact hc
  · simp only
    rw [hsame]
    exact hc
  · simp only
    rw [hsame]
    exact hc

theorem init_scriptState (cfg : Config) : (init cfg).1.scriptState = Phase.IDLE := by
  simp only [init, startKeepAliveTimer]
  split <;> simp [State.initial, Timer.set]

theorem init_consistent (cfg : Config) : Consistent (init cfg).1 := by
  simp only [init, startKeepAliveTimer]
  split
  · constructor <;> simp [State.initial]
  · constructor <;> simp [State.initial, Timer.set]

/-- Every reachable state keeps the script variables in agreement with the pending timers. -/
theorem reachable_consistent (cfg : Config) (s : State) (hr : Reachable cfg s) :
    Consistent s := by
  induction hr with
  | start => exact init_consistent cfg
  | startup result =>
    exact startupStatusCallback_consistent cfg result _ (init_consistent cfg) (init_scriptState cfg)
  | status event s _ ih => exact statusHandler_consistent cfg event s ih
  | timer h now s _ ih => exact fireTimer_consistent cfg h now s ih

/-! ## The confirmed cycle of the source configuration, step by step -/

theorem init_default : (init defaultConfig).1 = State.initial := by
  simp [init, startKeepAliveTimer, defaultConfig]

theorem first_sample_default :
    (onPowerSample defaultConfig (7 / 10) State.initial).1 = exampleDelay := by
  simp [onPowerSample, statusHandler, State.initial, startAutoOffCycle, Timer.set, defaultConfig,
    Config.initialDelay, Config.initialCheckDuration, exampleDelay]
  norm_num

theorem second_sample_default :
    (onPowerSample defaultConfig (7 / 10) exampleDelay).1 = exampleConfirmed := by
  simp [onPowerSample, statusHandler, exampleDelay, exampleConfirmed, Timer.clear, defaultConfig]

theorem delay_expiry_default :
    (fireTimer defaultConfig 1 1800000 exampleConfirmed).1 = exampleMonitoring := by
  simp [fireTimer, exampleConfirmed, exampleMonitoring, runCallback, startMonitoring, Timer.set,
    defaultConfig, Config.checkInterval]
  norm_num

theorem exampleDelay_reachable : Reachable defaultConfig exampleDelay := by
  have h := Reachable.status (StatusEvent.mk "switch:0" (some (7 / 10))) _
    (@Reachable.start defaultConfig)
  rw [init_default] at h
  exact first_sample_default ▸ h

theorem exampleConfirmed_reachable : Reachable defaultConfig exampleConfirmed := by
  have h := Reachable.status (StatusEvent.mk "switch:0" (some (7 / 10))) _
    exampleDelay_reachable
  exact second_sample_default ▸ h

theorem exampleMonitoring_reachable : Reachable defaultConfig exampleMonitoring := by
  have h := Reachable.timer 1 1800000 _ exampleConfirmed_reachable
  exact delay_expiry_default ▸ h

/-- C9: in every state reachable by status events and expirations of pending timers, the check timer
handle `initialCheckTimerHandle` is set only if the phase is `DELAY` and the confirmation flag is
false, and the same holds for every pending timer whose callback is `handleInitialCheckTimeout`.
Consequently, when the confirmation flag is true the handle is null and no pending timer has that
callback, so the handler cannot fire. -/
theorem check_timer_only_in_unconfirmed_delay (cfg : Config) (s : State)
    (hr : Reachable cfg s) :
    (∀ h, s.initialCheckTimerHandle = some h →
        s.scriptState = Phase.DELAY ∧ s.isHeatingConfirmed = false)
      ∧ (∀ t ∈ s.timers, t.callback = Callback.handleInitialCheckTimeout →
          s.scriptState = Phase.DELAY ∧ s.isHeatingConfirmed = false)
      ∧ (s.isHeatingConfirmed = true →
          s.initialCheckTimerHandle = none
            ∧ ∀ t ∈ s.timers, t.callback ≠ Callback.handleInitialCheckTimeout) := by
  have hc := reachable_consistent cfg s hr
  refine ⟨hc.check_phase, ?_, ?_⟩
  · intro t ht hcb
    exact hc.check_phase _ (hc.pending_check t ht hcb).1
  · intro hflag
    refine ⟨?_, ?_⟩
    · cases hh : s.initialCheckTimerHandle with
      | none => rfl
      | some h =>
        have := (hc.check_phase h hh).2
        rw [hflag] at this
        exact absurd this (by decide)
    · intro t ht hcb
      have := (hc.check_phase _ (hc.pending_check t ht hcb).1).2
      rw [hflag] at this
      exact absurd this (by decide)

/-- Instances of the check-timer invariant at the source configuration: in `exampleDelay` the
handle is set, the phase is `DELAY` and the cycle is unconfirmed; in `exampleConfirmed` the flag is
true and no pending timer has the callback `handleInitialCheckTimeout`. -/
theorem check_timer_only_in_unconfirmed_delay_witness :
    (Reachable defaultConfig exampleDelay ∧ exampleDelay.initialCheckTimerHandle = some 2
        ∧ Reachable defaultConfig exampleConfirmed ∧ exampleConfirmed.isHeatingConfirmed = true)
      ∧ (exampleDelay.scriptState = Phase.DELAY ∧ exampleDelay.isHeatingConfirmed = false)
      ∧ (exampleConfirmed.initialCheckTimerHandle = none
          ∧ ∀ t ∈ exampleConfirmed.timers, t.callback ≠ Callback.handleInitialCheckTimeout) :=
  ⟨⟨exampleDelay_reachable, rfl, exampleConfirmed_reachable, rfl⟩,
    (check_timer_only_in_unconfirmed_delay defaultConfig exampleDelay
      exampleDelay_reachable).1 2 rfl,
    (check_timer_only_in_unconfirmed_delay defaultConfig exampleConfirmed
      exampleConfirmed_reachable).2.2 rfl⟩

/-- C10, evaluated: at the source configuration, after a power-on sample, a confirming sample and
the expiry of the main delay timer (handle 1), the script is in phase `MONITORING` with the delay
timer handle `initialTimerHandle` still set to 1 and the monitoring timer handle set to 3, although
no timer is pending under handle 1 any more: `startMonitoring` does not null the handle of the
timer that has just fired. -/
theorem delay_handle_left_set_in_monitoring :
    (fireTimer defaultConfig 1 1800000
        (onPowerSample defaultConfig (7 / 10)
          (onPowerSample defaultConfig (7 / 10) (init defaultConfig).1).1).1).1 = exampleMonitoring
      ∧ Reachable defaultConfig exampleMonitoring
      ∧ exampleMonitoring.scriptState = Phase.MONITORING
      ∧ exampleMonitoring.initialTimerHandle = some 1
      ∧ exampleMonitoring.monitoringTimerHandle = some 3
      ∧ (∀ t ∈ exampleMonitoring.timers, t.handle ≠ 1)
      ∧ ¬ (∀ s, Reachable defaultConfig s →
            (s.initialTimerHandle ≠ none → s.scriptState = Phase.DELAY)
              ∧ (s.monitoringTimerHandle ≠ none → s.scriptState = Phase.MONITORING)
              ∧ ¬ (s.initialTimerHandle ≠ none ∧ s.monitoringTimerHandle ≠ none)) := by
  refine ⟨?_, exampleMonitoring_reachable, rfl, rfl, rfl, ?_, ?_⟩
  · rw [init_default, first_sample_default, second_sample_default, delay_expiry_default]
  · simp [exampleMonitoring]
  · intro h
    have := (h exampleMonitoring exampleMonitoring_reachable).1 (by simp [exampleMonitoring])
    exact absurd this (by decide)

/-- The invariant of the timer handles that does hold on the pending timers of every reachable
state: the main delay timer is pending only in phase `DELAY`, the poll timer is pending only in
phase `MONITORING` and its handle variable is set only there, so the two are never pending
together. -/
theorem pending_cycle_timers_match_phase (cfg : Config) (s : State) (hr : Reachable cfg s) :
    (∀ t ∈ s.timers, t.callback = Callback.startMonitoring → s.scriptState = Phase.DELAY)
      ∧ (∀ t ∈ s.timers, t.callback = Callback.pollTick → s.scriptState = Phase.MONITORING)
      ∧ (∀ h, s.monitoringTimerHandle = some h → s.scriptState = Phase.MONITORING)
      ∧ ¬ ((∃ t ∈ s.timers, t.callback = Callback.startMonitoring)
            ∧ ∃ t ∈ s.timers, t.callback = Callback.pollTick) := by
  have hc := reachable_consistent cfg s hr
  refine ⟨fun t ht hcb => (hc.pending_delay t ht hcb).2.1,
    fun t ht hcb => hc.poll_phase _ (hc.pending_poll t ht hcb), hc.poll_phase, ?_⟩
  rintro ⟨⟨t, ht, hcb⟩, ⟨u, hu, hucb⟩⟩
  have h1 := (hc.pending_delay t ht hcb).2.1
  have h2 := hc.poll_phase _ (hc.pending_poll u hu hucb)
  rw [h1] at h2
  exact absurd h2 (by decide)

/-! ## Phase changes -/

theorem resetAndStop_phase (s : State) : (resetAndStop s).1.scriptState = Phase.IDLE := by
  rw [resetAndStop_fst]

theorem startMonitoring_phase (cfg : Config) (now : Int) (s : State) :
    (startMonitoring cfg now s).1.scriptState = Phase.MONITORING := by
  cases hh : s.initialCheckTimerHandle <;> simp [startMonitoring, hh, Timer.set, Timer.clear]

theorem startMonitoring_flag (cfg : Config) (now : Int) (s : State) :
    (startMonitoring cfg now s).1.isHeatingConfirmed = s.isHeatingConfirmed := by
  cases hh : s.initialCheckTimerHandle <;> simp [startMonitoring, hh, Timer.set, Timer.clear]

theorem handleInitialCheckTimeout_phase (cfg : Config) (s : State) :
    (handleInitialCheckTimeout cfg s).1.scriptState = Phase.IDLE
      ∨ (handleInitialCheckTimeout cfg s).1.scriptState = s.scriptState := by
  unfold handleInitialCheckTimeout
  split
  · left
    simp only
    rw [resetAndStop_fst]
  · right
    rfl

theorem pollTick_phase (cfg : Config) (now : Int) (s : State) :
    (pollTick cfg now s).1.scriptState = Phase.IDLE
      ∨ pollTick cfg now s = (s, []) := by
  unfold pollTick
  simp only
  split
  · left
    exact resetAndStop_phase s
  · right
    rfl

/-- The phase after a status event, by the phase before it. -/
theorem statusHandler_phase (cfg : Config) (event : StatusEvent) (s : State) :
    (statusHandler cfg event s).1.scriptState = s.scriptState
      ∨ (s.scriptState = Phase.IDLE ∧ (statusHandler cfg event s).1.scriptState = Phase.DELAY)
      ∨ (s.scriptState = Phase.MONITORING
          ∧ (statusHandler cfg event s).1.scriptState = Phase.IDLE) := by
  unfold statusHandler
  cases event.apower with
  | none => exact Or.inl rfl
  | some currentPower =>
    simp only
    split
    · split
      · rename_i hmon
        exact Or.inr (Or.inr ⟨hmon.1, resetAndStop_phase s⟩)
      · split
        · cases hh : s.initialCheckTimerHandle with
          | none => exact Or.inl rfl
          | some h =>
            simp only
            split
            · exact Or.inl rfl
            · exact Or.inl rfl
        · split
          · split
            · rename_i hidle
              exact Or.inr (Or.inl ⟨hidle, startAutoOffCycle_phase cfg s⟩)
            · exact Or.inl rfl
          · exact Or.inl rfl
    · exact Or.inl rfl

/-- The phase after the expiry of a timer in a state whose variables agree with the timer table, by
the phase before it. -/
theorem fireTimer_phase (cfg : Config) (h : Handle) (now : Int) (s : State)
    (hc : Consistent s) :
    (fireTimer cfg h now s).1.scriptState = s.scriptState
      ∨ (s.scriptState = Phase.DELAY
          ∧ ((fireTimer cfg h now s).1.scriptState = Phase.MONITORING
              ∨ (fireTimer cfg h now s).1.scriptState = Phase.IDLE))
      ∨ (s.scriptState = Phase.MONITORING
          ∧ (fireTimer cfg h now s).1.scriptState = Phase.IDLE) := by
  unfold fireTimer
  cases hf : s.timers.find? (fun t => t.handle == h) with
  | none => exact Or.inl rfl
  | some t =>
    have hmem : t ∈ s.timers := List.mem_of_find?_eq_some hf
    have hs1 : (if t.repeating then s
        else { s with timers := s.timers.filter (fun u => u.handle != h) }).scriptState
          = s.scriptState := by
      split <;> rfl
    simp only
    cases hcb : t.callback with
    | startMonitoring =>
      have hd := hc.pending_delay t hmem hcb
      simp only [runCallback]
      exact Or.inr (Or.inl ⟨hd.2.1, Or.inl (startMonitoring_phase cfg now _)⟩)
    | handleInitialCheckTimeout =>
      have hd := hc.check_phase _ (hc.pending_check t hmem hcb).1
      simp only [runCallback]
      rcases handleInitialCheckTimeout_phase cfg
        (if t.repeating then s
          else { s with timers := s.timers.filter (fun u => u.handle != h) }) with hp | hp
      · exact Or.inr (Or.inl ⟨hd.1, Or.inr hp⟩)
      · exact Or.inl (hp.trans hs1)
    | pollTick =>
      have hd := hc.poll_phase _ (hc.pending_poll t hmem hcb)
      simp only [runCallback]
      rcases pollTick_phase cfg now
        (if t.repeating then s
          else { s with timers := s.timers.filter (fun u => u.handle != h) }) with hp | hp
      · exact Or.inr (Or.inr ⟨hd, hp⟩)
      · rw [hp]
        exact Or.inl hs1
    | keepAlive =>
      simp only [runCallback, keepAliveTick]
      exact Or.inl hs1

/-- C11: in every reachable state, a single status event or the expiry of a pending timer changes
the phase only along the allowed edges: no change, `IDLE` to `DELAY`, `DELAY` to `MONITORING`,
`DELAY` to `IDLE`, `MONITORING` to `IDLE`.  In particular no such event takes the machine from
`IDLE` to `MONITORING` or from `MONITORING` to `DELAY`. -/
theorem phase_changes_are_legal (cfg : Config) (s : State) (hr : Reachable cfg s) :
    (∀ event, legalTransition s.scriptState (statusHandler cfg event s).1.scriptState)
      ∧ (∀ h now, legalTransition s.scriptState (fireTimer cfg h now s).1.scriptState)
      ∧ (∀ event, ¬ (s.scriptState = Phase.IDLE
            ∧ (statusHandler cfg event s).1.scriptState = Phase.MONITORING)
          ∧ ¬ (s.scriptState = Phase.MONITORING
            ∧ (statusHandler cfg event s).1.scriptState = Phase.DELAY))
      ∧ (∀ h now, ¬ (s.scriptState = Phase.IDLE
            ∧ (fireTimer cfg h now s).1.scriptState = Phase.MONITORING)
          ∧ ¬ (s.scriptState = Phase.MONITORING
            ∧ (fireTimer cfg h now s).1.scriptState = Phase.DELAY)) := by
  have hc := reachable_consistent cfg s hr
  have hs : ∀ event, legalTransition s.scriptState (statusHandler cfg event s).1.scriptState := by
    intro event
    rcases statusHandler_phase cfg event s with h | ⟨h1, h2⟩ | ⟨h1, h2⟩
    · exact Or.inl h.symm
    · exact Or.inr (Or.inl ⟨h1, h2⟩)
    · exact Or.inr (Or.inr (Or.inr (Or.inr ⟨h1, h2⟩)))
  have ht : ∀ h now, legalTransition s.scriptState (fireTimer cfg h now s).1.scriptState := by
    intro h now
    rcases fireTimer_phase cfg h now s hc with h0 | ⟨h1, h2 | h2⟩ | ⟨h1, h2⟩
    · exact Or.inl h0.symm
    · exact Or.inr (Or.inr (Or.inl ⟨h1, h2⟩))
    · exact Or.inr (Or.inr (Or.inr (Or.inl ⟨h1, h2⟩)))
    · exact Or.inr (Or.inr (Or.inr (Or.inr ⟨h1, h2⟩)))
  have key : ∀ a b : Phase, legalTransition a b →
      ¬ (a = Phase.IDLE ∧ b = Phase.MONITORING) ∧ ¬ (a = Phase.MONITORING ∧ b = Phase.DELAY) := by
    intro a b hl
    cases a <;> cases b <;> simp [legalTransition] at hl ⊢
  exact ⟨hs, ht, fun event => key _ _ (hs event), fun h now => key _ _ (ht h now)⟩

/-- Instances of the legal phase changes at the source configuration: in `exampleConfirmed` the
expiry of the main delay timer takes `DELAY` to `MONITORING`, and in `exampleMonitoring` a sample
of 1 W takes `MONITORING` to `IDLE`. -/
theorem phase_changes_are_legal_witness :
    (Reachable defaultConfig exampleConfirmed ∧ Reachable defaultConfig exampleMonitoring)
      ∧ legalTransition exampleConfirmed.scriptState
          (fireTimer defaultConfig 1 1800000 exampleConfirmed).1.scriptState
      ∧ legalTransition exampleMonitoring.scriptState
          (statusHandler defaultConfig (StatusEvent.mk "switch:0" (some 1))
            exampleMonitoring).1.scriptState :=
  ⟨⟨exampleConfirmed_reachable, exampleMonitoring_reachable⟩,
    (phase_changes_are_legal defaultConfig exampleConfirmed exampleConfirmed_reachable).2.1
      1 1800000,
    (phase_changes_are_legal defaultConfig exampleMonitoring exampleMonitoring_reachable).1
      (StatusEvent.mk "switch:0" (some 1))⟩

/-! ## Start-up reconciliation -/

theorem startAutoOffCycle_snd_of_idle (cfg : Config) (r : State)
    (hidle : r.scriptState = Phase.IDLE) :
    (startAutoOffCycle cfg r).2 =
      sendPushNotification cfg "MACHINE_ON"
        ++ controlSceneActivation cfg "MORNING_TOGGLE_SCENE" true
        ++ [Effect.timerSet r.nextHandle cfg.initialDelay false Callback.startMonitoring,
            Effect.timerSet (r.nextHandle + 1) cfg.initialCheckDuration false
              Callback.handleInitialCheckTimeout] := by
  simp [startAutoOffCycle, hidle, Timer.set]

/-- The start-up callback with a reading, in a state of phase `IDLE`, is the status handler on a
sample of that power. -/
theorem startupStatusCallback_idle (cfg : Config) (p : ℚ) (s : State)
    (hidle : s.scriptState = Phase.IDLE) :
    startupStatusCallback cfg (some (some p)) s = onPowerSample cfg p s := by
  have hsame : ({ s with scriptState := Phase.IDLE } : State) = s := by
    rw [← hidle]
  rw [onPowerSample_idle cfg s p hidle]
  simp only [startupStatusCallback]
  split
  · rfl
  · rw [hsame]

/-- C12: on the state after the top-level statements (phase `IDLE`, no cycle timer), the start-up
status callback with a successful reading `p` returns the same state and the same calls as the
status handler on a sample of power `p`.  For `p >= POWER_ON_THRESHOLD` both enter `DELAY` with the
main delay timer and the check timer armed, after the `MACHINE_ON` notification and the request to
enable the scene; for `p < POWER_ON_THRESHOLD` both leave the state as it is and issue nothing. -/
theorem startup_reading_acts_as_idle_sample (cfg : Config) (p : ℚ) :
    startupStatusCallback cfg (some (some p)) (init cfg).1 = onPowerSample cfg p (init cfg).1
      ∧ (cfg.POWER_ON_THRESHOLD ≤ p →
          (startupStatusCallback cfg (some (some p)) (init cfg).1).1.scriptState = Phase.DELAY
            ∧ (startupStatusCallback cfg (some (some p)) (init cfg).1).1.initialTimerHandle
                = some (init cfg).1.nextHandle
            ∧ (startupStatusCallback cfg (some (some p)) (init cfg).1).1.initialCheckTimerHandle
                = some ((init cfg).1.nextHandle + 1)
            ∧ (startupStatusCallback cfg (some (some p)) (init cfg).1).1.timers =
                (init cfg).1.timers ++
                  [TimerEntry.mk (init cfg).1.nextHandle cfg.initialDelay false
                     Callback.startMonitoring,
                   TimerEntry.mk ((init cfg).1.nextHandle + 1) cfg.initialCheckDuration false
                     Callback.handleInitialCheckTimeout]
            ∧ (startupStatusCallback cfg (some (some p)) (init cfg).1).2 =
                sendPushNotification cfg "MACHINE_ON"
                  ++ controlSceneActivation cfg "MORNING_TOGGLE_SCENE" true
                  ++ [Effect.timerSet (init cfg).1.nextHandle cfg.initialDelay false
                        Callback.startMonitoring,
                      Effect.timerSet ((init cfg).1.nextHandle + 1) cfg.initialCheckDuration
                        false Callback.handleInitialCheckTimeout])
      ∧ (p < cfg.POWER_ON_THRESHOLD →
          startupStatusCallback cfg (some (some p)) (init cfg).1 = ((init cfg).1, [])
            ∧ (init cfg).1.scriptState = Phase.IDLE
            ∧ (init cfg).1.initialTimerHandle = none
            ∧ (init cfg).1.monitoringTimerHandle = none
            ∧ (init cfg).1.initialCheckTimerHandle = none) := by
  have hidle := init_scriptState cfg
  refine ⟨startupStatusCallback_idle cfg p _ hidle, ?_, ?_⟩
  · intro hp
    have e : startupStatusCallback cfg (some (some p)) (init cfg).1
        = startAutoOffCycle cfg (init cfg).1 := by
      simp only [startupStatusCallback, if_pos hp]
    rw [e, startAutoOffCycle_fst_of_idle cfg _ hidle, startAutoOffCycle_snd_of_idle cfg _ hidle]
    exact ⟨rfl, rfl, rfl, rfl, rfl⟩
  · intro hp
    refine ⟨?_, hidle, ?_, ?_, ?_⟩
    · rw [startupStatusCallback_idle cfg p _ hidle, onPowerSample_idle cfg _ p hidle,
        if_neg (not_le.mpr hp)]
    · simp only [init, startKeepAliveTimer]
      split <;> simp [State.initial, Timer.set]
    · simp only [init, startKeepAliveTimer]
      split <;> simp [State.initial, Timer.set]
    · simp only [init, startKeepAliveTimer]
      split <;> simp [State.initial, Timer.set]

/-- Instances of the start-up reconciliation at the source configuration: a reading of exactly
0.7 W enters `DELAY`, a reading of 0.3 W changes nothing. -/
theorem startup_reading_acts_as_idle_sample_witness :
    (defaultConfig.POWER_ON_THRESHOLD ≤ (7 / 10 : ℚ)
        ∧ (3 / 10 : ℚ) < defaultConfig.POWER_ON_THRESHOLD)
      ∧ startupStatusCallback defaultConfig (some (some (7 / 10))) (init defaultConfig).1
          = onPowerSample defaultConfig (7 / 10) (init defaultConfig).1
      ∧ (startupStatusCallback defaultConfig (some (some (7 / 10)))
            (init defaultConfig).1).1.scriptState = Phase.DELAY
      ∧ startupStatusCallback defaultConfig (some (some (3 / 10))) (init defaultConfig).1
          = ((init defaultConfig).1, []) :=
  have hlt : (3 / 10 : ℚ) < defaultConfig.POWER_ON_THRESHOLD := by
    norm_num [defaultConfig]
  ⟨⟨le_refl _, hlt⟩,
    (startup_reading_acts_as_idle_sample defaultConfig (7 / 10)).1,
    ((startup_reading_acts_as_idle_sample defaultConfig (7 / 10)).2.1 (le_refl _)).1,
    ((startup_reading_acts_as_idle_sample defaultConfig (3 / 10)).2.2 hlt).1⟩

theorem startup_failure_default :
    (startupStatusCallback defaultConfig none exampleDelay).1 = exampleOrphaned := by
  simp [startupStatusCallback, exampleDelay, exampleOrphaned]

/-- C13, evaluated: at the source configuration, a power-on sample is handled before the result of
the start-up status request arrives, and the request then reports a failure.  The callback only
overwrites the phase: afterwards the phase is `IDLE` while the main delay timer (handle 1) and the
check timer (handle 2) are still pending and their handles still set, and the expiry of the delay
timer then takes the machine from `IDLE` into `MONITORING`.  A reading below the threshold does the
same as a failure. -/
theorem startup_failure_leaves_timers_pending :
    (trace defaultConfig
        [Event.status (StatusEvent.mk "switch:0" (some (7 / 10))), Event.startup none]
        (init defaultConfig).1).map Prod.fst = [exampleDelay, exampleOrphaned]
      ∧ exampleOrphaned.scriptState = Phase.IDLE
      ∧ exampleOrphaned.initialTimerHandle = some 1
      ∧ exampleOrphaned.initialCheckTimerHandle = some 2
      ∧ exampleOrphaned.timers =
          [TimerEntry.mk 1 1800000 false Callback.startMonitoring,
           TimerEntry.mk 2 900000 false Callback.handleInitialCheckTimeout]
      ∧ (fireTimer defaultConfig 1 1800000 exampleOrphaned).1.scriptState = Phase.MONITORING
      ∧ (startupStatusCallback defaultConfig (some (some 0)) exampleDelay).1 = exampleOrphaned
      ∧ (∀ (cfg : Config) (s : State),
          startupStatusCallback cfg none s = ({ s with scriptState := Phase.IDLE }, [])) := by
  refine ⟨?_, rfl, rfl, rfl, rfl, ?_, ?_, ?_⟩
  · have h1 : statusHandler defaultConfig (StatusEvent.mk "switch:0" (some (7 / 10)))
        State.initial = onPowerSample defaultConfig (7 / 10) State.initial := rfl
    simp only [trace, step, List.map, init_default, h1, first_sample_default,
      startup_failure_default]
  · simp [fireTimer, exampleOrphaned, runCallback, startMonitoring, Timer.set, Timer.clear]
  · have hlow : ¬ (defaultConfig.POWER_ON_THRESHOLD ≤ (0 : ℚ)) := by
      norm_num [defaultConfig]
    simp only [startupStatusCallback, if_neg hlow]
    rfl
  · intro cfg s
    rfl

/-! ## The cloud helpers -/

/-- The lookup `SCENE_IDS[name]` is truthy with text `sceneId` when the name has a non-blank own
entry. -/
theorem sceneIdOf_own (cfg : Config) (name sceneId : String)
    (hl : cfg.SCENE_IDS.lookup name = some sceneId) (hid : sceneId ≠ "") :
    sceneIdOf cfg name = some sceneId := by
  simp only [sceneIdOf, hl, if_neg hid]

/-- Without an own entry the lookup `SCENE_IDS[name]` yields the inherited property, if any. -/
theorem sceneIdOf_inherited (cfg : Config) (name : String)
    (hl : cfg.SCENE_IDS.lookup name = none) :
    sceneIdOf cfg name = cfg.inheritedProperties.lookup name := by
  simp only [sceneIdOf, hl]

/-- No identifier in the scene mapping of the source is blank. -/
theorem defaultSceneIds_nonblank (name sceneId : String)
    (hl : defaultConfig.SCENE_IDS.lookup name = some sceneId) : sceneId ≠ "" := by
  simp only [defaultConfig, List.lookup] at hl
  split at hl
  · simp only [Option.some.injEq] at hl
    rw [← hl]
    decide
  · split at hl
    · simp only [Option.some.injEq] at hl
      rw [← hl]
      decide
    · split at hl
      · simp only [Option.some.injEq] at hl
        rw [← hl]
        decide
      · exact absurd hl (by simp)

theorem sendPushNotification_of_none (cfg : Config) (name : String)
    (h : sceneIdOf cfg name = none) :
    sendPushNotification cfg name
      = [Effect.printError ("ERROR: No SceneID found for '" ++ name ++ "'.")] := by
  simp only [sendPushNotification, h]

theorem controlSceneActivation_of_none (cfg : Config) (name : String) (enable : Bool)
    (h : sceneIdOf cfg name = none) :
    controlSceneActivation cfg name enable
      = [Effect.printError ("ERROR: No SceneID found for '" ++ name ++ "'.")] := by
  simp only [controlSceneActivation, h]

theorem sendPushNotification_of_some (cfg : Config) (name sceneId : String)
    (h : sceneIdOf cfg name = some sceneId) :
    sendPushNotification cfg name =
      if cfg.SHELLY_CLOUD_AUTH_KEY = "YOUR_CLOUD_AUTHORIZATION_KEY_HERE"
          ∨ cfg.SHELLY_CLOUD_AUTH_KEY = "" then
        [Effect.printError "ERROR: Cloud authorization key not set or incorrect."]
      else
        [Effect.httpGet (cfg.SHELLY_CLOUD_BASE_URL ++ "/scene/manual_run?id=" ++ sceneId
          ++ "&auth_key=" ++ cfg.SHELLY_CLOUD_AUTH_KEY)] := by
  simp only [sendPushNotification, h]

theorem controlSceneActivation_of_some (cfg : Config) (name sceneId : String) (enable : Bool)
    (h : sceneIdOf cfg name = some sceneId) :
    controlSceneActivation cfg name enable =
      if cfg.SHELLY_CLOUD_AUTH_KEY = "YOUR_CLOUD_AUTHORIZATION_KEY_HERE"
          ∨ cfg.SHELLY_CLOUD_AUTH_KEY = "" then
        [Effect.printError "ERROR: Cloud authorization key not set."]
      else
        [Effect.httpGet (cfg.SHELLY_CLOUD_BASE_URL ++ "/scene/enable?id=" ++ sceneId
          ++ "&auth_key=" ++ cfg.SHELLY_CLOUD_AUTH_KEY
          ++ (if enable then "&enabled=true" else "&enabled=false"))] := by
  simp only [controlSceneActivation, h]

/-- Counterexample to C14 as stated: with the scene mapping of the source and credentials filled
in, the name `constructor` has no entry in `SCENE_IDS`, yet `SCENE_IDS["constructor"]` is the
function every object inherits, which is truthy, so both helpers pass the `!sceneId` guard and
issue an HTTP GET.  Hence "no entry in the mapping implies only a logged error" does not hold for
every name. -/
theorem inherited_name_issues_request :
    configuredConfig.SCENE_IDS = defaultConfig.SCENE_IDS
      ∧ configuredConfig.SCENE_IDS.lookup "constructor" = none
      ∧ sendPushNotification configuredConfig "constructor"
          = [Effect.httpGet ("https://example.shelly.cloud" ++ "/scene/manual_run?id="
              ++ nativeFunctionText "Object" ++ "&auth_key=" ++ "SECRET")]
      ∧ controlSceneActivation configuredConfig "constructor" false
          = [Effect.httpGet ("https://example.shelly.cloud" ++ "/scene/enable?id="
              ++ nativeFunctionText "Object" ++ "&auth_key=" ++ "SECRET" ++ "&enabled=false")]
      ∧ ¬ (∀ (base key name : String),
            defaultConfig.SCENE_IDS.lookup name = none →
            ∃ msg, sendPushNotification (withCredentials base key) name
              = [Effect.printError msg]) := by
  have hown : configuredConfig.SCENE_IDS.lookup "constructor" = none := by
    simp [configuredConfig, defaultConfig, List.lookup]
  have hinh : configuredConfig.inheritedProperties.lookup "constructor"
      = some (nativeFunctionText "Object") := by
    simp [configuredConfig, defaultConfig, objectPrototypeProperties, List.lookup]
  have hid : sceneIdOf configuredConfig "constructor" = some (nativeFunctionText "Object") := by
    rw [sceneIdOf_inherited _ _ hown, hinh]
  have hkey : ¬ (configuredConfig.SHELLY_CLOUD_AUTH_KEY = "YOUR_CLOUD_AUTHORIZATION_KEY_HERE"
      ∨ configuredConfig.SHELLY_CLOUD_AUTH_KEY = "") := by
    simp [configuredConfig]
  have hs : sendPushNotification configuredConfig "constructor"
      = [Effect.httpGet ("https://example.shelly.cloud" ++ "/scene/manual_run?id="
          ++ nativeFunctionText "Object" ++ "&auth_key=" ++ "SECRET")] := by
    rw [sendPushNotification_of_some _ _ _ hid, if_neg hkey]
    rfl
  have hcs : controlSceneActivation configuredConfig "constructor" false
      = [Effect.httpGet ("https://example.shelly.cloud" ++ "/scene/enable?id="
          ++ nativeFunctionText "Object" ++ "&auth_key=" ++ "SECRET" ++ "&enabled=false")] := by
    rw [controlSceneActivation_of_some _ _ _ _ hid, if_neg hkey]
    rfl
  refine ⟨rfl, hown, hs, hcs, ?_⟩
  intro h
  obtain ⟨msg, hm⟩ := h "https://example.shelly.cloud" "SECRET" "constructor" hown
  have e : withCredentials "https://example.shelly.cloud" "SECRET" = configuredConfig := rfl
  rw [e, hs] at hm
  simp at hm

/-- C14, amended: take the scene mapping of the source, any name, any flag and any credentials.
The two cloud helpers are total and return a single call.  If `SCENE_IDS[name]` yields nothing,
that is the name has no entry in the mapping and is not the name of a property every object
inherits, or if the authorisation key is empty or still the placeholder, that call is a logged
error and no HTTP request is issued.  Otherwise, the name being mapped or inherited and the key
set, it is exactly one HTTP GET, to the `manual_run` address for the notification and to the
`enable` address with the requested flag for the scene.  The completion callbacks of those requests
leave the state alone and issue nothing but a logged error, so nothing is retried. -/
theorem cloud_helpers_log_or_send_once (cfg : Config) (name : String) (enable : Bool)
    (hmap : cfg.SCENE_IDS = defaultConfig.SCENE_IDS) :
    (((cfg.SCENE_IDS.lookup name = none ∧ cfg.inheritedProperties.lookup name = none)
          ∨ cfg.SHELLY_CLOUD_AUTH_KEY = ""
          ∨ cfg.SHELLY_CLOUD_AUTH_KEY = "YOUR_CLOUD_AUTHORIZATION_KEY_HERE") →
        (∃ msg, sendPushNotification cfg name = [Effect.printError msg])
          ∧ ∃ msg, controlSceneActivation cfg name enable = [Effect.printError msg])
      ∧ (∀ sceneId,
          (cfg.SCENE_IDS.lookup name = some sceneId
            ∨ (cfg.SCENE_IDS.lookup name = none
                ∧ cfg.inheritedProperties.lookup name = some sceneId)) →
          cfg.SHELLY_CLOUD_AUTH_KEY ≠ "" →
          cfg.SHELLY_CLOUD_AUTH_KEY ≠ "YOUR_CLOUD_AUTHORIZATION_KEY_HERE" →
          sendPushNotification cfg name =
              [Effect.httpGet (cfg.SHELLY_CLOUD_BASE_URL ++ "/scene/manual_run?id=" ++ sceneId
                ++ "&auth_key=" ++ cfg.SHELLY_CLOUD_AUTH_KEY)]
            ∧ controlSceneActivation cfg name enable =
              [Effect.httpGet (cfg.SHELLY_CLOUD_BASE_URL ++ "/scene/enable?id=" ++ sceneId
                ++ "&auth_key=" ++ cfg.SHELLY_CLOUD_AUTH_KEY
                ++ (if enable then "&enabled=true" else "&enabled=false"))])
      ∧ (∀ (code : Int) (msg : String) (s : State),
          (sendPushNotificationDone name code msg s).1 = s
            ∧ (controlSceneActivationDone name enable code msg s).1 = s
            ∧ (∀ e ∈ (sendPushNotificationDone name code msg s).2, ∃ m, e = Effect.printError m)
            ∧ ∀ e ∈ (controlSceneActivationDone name enable code msg s).2,
                ∃ m, e = Effect.printError m) := by
  refine ⟨?_, ?_, ?_⟩
  · intro h
    cases hid : sceneIdOf cfg name with
    | none =>
      exact ⟨⟨_, sendPushNotification_of_none cfg name hid⟩,
        ⟨_, controlSceneActivation_of_none cfg name enable hid⟩⟩
    | some sceneId =>
      have hkey : cfg.SHELLY_CLOUD_AUTH_KEY = "YOUR_CLOUD_AUTHORIZATION_KEY_HERE"
          ∨ cfg.SHELLY_CLOUD_AUTH_KEY = "" := by
        rcases h with ⟨h1, h2⟩ | h | h
        · rw [sceneIdOf_inherited cfg name h1, h2] at hid
          exact absurd hid (by simp)
        · exact Or.inr h
        · exact Or.inl h
      refine ⟨⟨"ERROR: Cloud authorization key not set or incorrect.", ?_⟩,
        ⟨"ERROR: Cloud authorization key not set.", ?_⟩⟩
      · rw [sendPushNotification_of_some cfg name sceneId hid, if_pos hkey]
      · rw [controlSceneActivation_of_some cfg name sceneId enable hid, if_pos hkey]
  · intro sceneId hl hk1 hk2
    have hkey : ¬ (cfg.SHELLY_CLOUD_AUTH_KEY = "YOUR_CLOUD_AUTHORIZATION_KEY_HERE"
        ∨ cfg.SHELLY_CLOUD_AUTH_KEY = "") := by
      rintro (h | h)
      · exact hk2 h
      · exact hk1 h
    have hid : sceneIdOf cfg name = some sceneId := by
      rcases hl with hl | ⟨h1, h2⟩
      · apply sceneIdOf_own cfg name sceneId hl
        rw [hmap] at hl
        exact defaultSceneIds_nonblank name sceneId hl
      · rw [sceneIdOf_inherited cfg name h1, h2]
    exact ⟨by rw [sendPushNotification_of_some cfg name sceneId hid, if_neg hkey],
      by rw [controlSceneActivation_of_some cfg name sceneId enable hid, if_neg hkey]⟩
  · intro code msg s
    refine ⟨?_, ?_, ?_, ?_⟩
    · unfold sendPushNotificationDone
      split <;> rfl
    · unfold controlSceneActivationDone
      split <;> rfl
    · intro e he
      unfold sendPushNotificationDone at he
      split at he
      · exact ⟨_, List.mem_singleton.mp he⟩
      · simp at he
    · intro e he
      unfold controlSceneActivationDone at he
      split at he
      · exact ⟨_, List.mem_singleton.mp he⟩
      · simp at he

/-- Instances of the amended C14 with the source mapping.  With credentials filled in, the mapped
name `MACHINE_ON` gives one HTTP GET, and the name `MORNING_TOGGLE_SCENE`, neither mapped nor
inherited, gives one logged error; with the placeholder key of the source, `MACHINE_ON` gives one
logged error. -/
theorem cloud_helpers_log_or_send_once_witness :
    (configuredConfig.SCENE_IDS = defaultConfig.SCENE_IDS
        ∧ configuredConfig.SCENE_IDS.lookup "MACHINE_ON" = some "YOUR_SCENE_ID_FOR_MACHINE_ON"
        ∧ configuredConfig.SHELLY_CLOUD_AUTH_KEY ≠ ""
        ∧ configuredConfig.SHELLY_CLOUD_AUTH_KEY ≠ "YOUR_CLOUD_AUTHORIZATION_KEY_HERE"
        ∧ (configuredConfig.SCENE_IDS.lookup "MORNING_TOGGLE_SCENE" = none
            ∧ configuredConfig.inheritedProperties.lookup "MORNING_TOGGLE_SCENE" = none)
        ∧ defaultConfig.SHELLY_CLOUD_AUTH_KEY = "YOUR_CLOUD_AUTHORIZATION_KEY_HERE")
      ∧ sendPushNotification configuredConfig "MACHINE_ON" =
          [Effect.httpGet (configuredConfig.SHELLY_CLOUD_BASE_URL ++ "/scene/manual_run?id="
            ++ "YOUR_SCENE_ID_FOR_MACHINE_ON" ++ "&auth_key="
            ++ configuredConfig.SHELLY_CLOUD_AUTH_KEY)]
      ∧ (∃ msg, controlSceneActivation configuredConfig "MORNING_TOGGLE_SCENE" true
          = [Effect.printError msg])
      ∧ ∃ msg, sendPushNotification defaultConfig "MACHINE_ON" = [Effect.printError msg] :=
  have hl : configuredConfig.SCENE_IDS.lookup "MACHINE_ON"
      = some "YOUR_SCENE_ID_FOR_MACHINE_ON" := by
    simp [configuredConfig, defaultConfig, List.lookup]
  have hk1 : configuredConfig.SHELLY_CLOUD_AUTH_KEY ≠ "" := by
    simp [configuredConfig]
  have hk2 : configuredConfig.SHELLY_CLOUD_AUTH_KEY ≠ "YOUR_CLOUD_AUTHORIZATION_KEY_HERE" := by
    simp [configuredConfig]
  have hnone : configuredConfig.SCENE_IDS.lookup "MORNING_TOGGLE_SCENE" = none
      ∧ configuredConfig.inheritedProperties.lookup "MORNING_TOGGLE_SCENE" = none := by
    constructor
    · simp [configuredConfig, defaultConfig, List.lookup]
    · simp [configuredConfig, defaultConfig, objectPrototypeProperties, List.lookup]
  ⟨⟨rfl, hl, hk1, hk2, hnone, rfl⟩,
    ((cloud_helpers_log_or_send_once configuredConfig "MACHINE_ON" true rfl).2.1 _
      (Or.inl hl) hk1 hk2).1,
    ((cloud_helpers_log_or_send_once configuredConfig "MORNING_TOGGLE_SCENE" true rfl).1
      (Or.inl hnone)).2,
    ((cloud_helpers_log_or_send_once defaultConfig "MACHINE_ON" true rfl).1
      (Or.inr (Or.inr rfl))).1⟩

/-- C15, evaluated: the scene name used at every call site, `MORNING_TOGGLE_SCENE`, has no entry in
the scene mapping of the source, so with that mapping `controlSceneActivation` only logs an error,
whatever the base URL, the authorisation key and the flag.  With credentials filled in
(`configuredConfig`), starting a cycle sends the `MACHINE_ON` notification as an HTTP GET but no
request to enable the scene; confirming standby, the false start and the emergency shutdown send no
scene request either. -/
theorem scene_toggle_name_is_unmapped (base key : String) (enable : Bool) :
    defaultConfig.SCENE_IDS.lookup "MORNING_TOGGLE_SCENE" = none
      ∧ controlSceneActivation (withCredentials base key) "MORNING_TOGGLE_SCENE" enable
          = [Effect.printError "ERROR: No SceneID found for 'MORNING_TOGGLE_SCENE'."]
      ∧ (onPowerSample configuredConfig (7 / 10) (init configuredConfig).1).2 =
          [Effect.httpGet ("https://example.shelly.cloud" ++ "/scene/manual_run?id="
              ++ "YOUR_SCENE_ID_FOR_MACHINE_ON" ++ "&auth_key=" ++ "SECRET"),
           Effect.printError "ERROR: No SceneID found for 'MORNING_TOGGLE_SCENE'.",
           Effect.timerSet 1 1800000 false Callback.startMonitoring,
           Effect.timerSet 2 900000 false Callback.handleInitialCheckTimeout]
      ∧ (pollTick configuredConfig 3000000 exampleMonitoring).2 =
          [Effect.httpGet ("https://example.shelly.cloud" ++ "/scene/manual_run?id="
              ++ "YOUR_SCENE_ID_FOR_STANDBY_OFF_DETECTED" ++ "&auth_key=" ++ "SECRET"),
           Effect.switchSet 0 false,
           Effect.printError "ERROR: No SceneID found for 'MORNING_TOGGLE_SCENE'.",
           Effect.timerClear 1, Effect.timerClear 3]
      ∧ (handleInitialCheckTimeout configuredConfig exampleDelay).2 =
          [Effect.printError "ERROR: No SceneID found for 'MORNING_TOGGLE_SCENE'.",
           Effect.timerClear 1, Effect.timerClear 2]
      ∧ (onPowerSample configuredConfig 1 exampleMonitoring).2 =
          [Effect.switchSet 0 false,
           Effect.httpGet ("https://example.shelly.cloud" ++ "/scene/manual_run?id="
              ++ "YOUR_SCENE_ID_FOR_MACHINE_AUTO_OFF" ++ "&auth_key=" ++ "SECRET"),
           Effect.printError "ERROR: No SceneID found for 'MORNING_TOGGLE_SCENE'.",
           Effect.timerClear 1, Effect.timerClear 3] := by
  have hl : defaultConfig.SCENE_IDS.lookup "MORNING_TOGGLE_SCENE" = none := by
    simp [defaultConfig, List.lookup]
  have hinh : defaultConfig.inheritedProperties.lookup "MORNING_TOGGLE_SCENE" = none := by
    simp [defaultConfig, objectPrototypeProperties, List.lookup]
  have hnone : ∀ cfg : Config, cfg.SCENE_IDS = defaultConfig.SCENE_IDS →
      cfg.inheritedProperties = defaultConfig.inheritedProperties →
      sceneIdOf cfg "MORNING_TOGGLE_SCENE" = none := by
    intro cfg h1 h2
    rw [sceneIdOf_inherited cfg _ (by rw [h1]; exact hl), h2, hinh]
  have hc : ∀ b, controlSceneActivation configuredConfig "MORNING_TOGGLE_SCENE" b
      = [Effect.printError "ERROR: No SceneID found for 'MORNING_TOGGLE_SCENE'."] := by
    intro b
    rw [controlSceneActivation_of_none _ _ _ (hnone configuredConfig rfl rfl)]
    rfl
  have hn : ∀ name sceneId, defaultConfig.SCENE_IDS.lookup name = some sceneId → sceneId ≠ "" →
      sendPushNotification configuredConfig name
        = [Effect.httpGet ("https://example.shelly.cloud" ++ "/scene/manual_run?id="
            ++ sceneId ++ "&auth_key=" ++ "SECRET")] := by
    intro name sceneId hs hid
    have hs2 : configuredConfig.SCENE_IDS.lookup name = some sceneId := hs
    have hkey : ¬ (configuredConfig.SHELLY_CLOUD_AUTH_KEY = "YOUR_CLOUD_AUTHORIZATION_KEY_HERE"
        ∨ configuredConfig.SHELLY_CLOUD_AUTH_KEY = "") := by
      simp [configuredConfig]
    rw [sendPushNotification_of_some _ _ _ (sceneIdOf_own _ _ _ hs2 hid), if_neg hkey]
    rfl
  have hinit : (init configuredConfig).1 = State.initial := by
    simp [init, startKeepAliveTimer, configuredConfig, defaultConfig]
  refine ⟨hl, ?_, ?_, ?_, ?_, ?_⟩
  · rw [controlSceneActivation_of_none _ _ _ (hnone (withCredentials base key) rfl rfl)]
    rfl
  · have hidle : State.initial.scriptState = Phase.IDLE := rfl
    have hp : configuredConfig.POWER_ON_THRESHOLD ≤ (7 / 10 : ℚ) := le_refl _
    rw [hinit, onPowerSample_idle _ _ _ hidle, if_pos hp,
      startAutoOffCycle_snd_of_idle _ _ hidle, hc,
      hn "MACHINE_ON" "YOUR_SCENE_ID_FOR_MACHINE_ON" (by simp [defaultConfig, List.lookup])
        (by decide)]
    simp [State.initial, configuredConfig, defaultConfig, Config.initialDelay,
      Config.initialCheckDuration]
    norm_num
  · have he : configuredConfig.checkDuration
        ≤ (((3000000 : Int) - exampleMonitoring.monitoringStartTime : Int) : ℚ) := by
      norm_num [configuredConfig, defaultConfig, Config.checkDuration, exampleMonitoring]
    simp only [pollTick, if_pos he, resetAndStop_snd, hc,
      hn "STANDBY_OFF_DETECTED" "YOUR_SCENE_ID_FOR_STANDBY_OFF_DETECTED"
        (by simp [defaultConfig, List.lookup]) (by decide)]
    rfl
  · have hflag : exampleDelay.isHeatingConfirmed = false := rfl
    simp only [handleInitialCheckTimeout, if_pos hflag, resetAndStop_snd, hc]
    rfl
  · have hcond : exampleMonitoring.scriptState = Phase.MONITORING
        ∧ configuredConfig.POWER_ACTIVE_THRESHOLD ≤ (1 : ℚ) := by
      refine ⟨rfl, ?_⟩
      norm_num [configuredConfig, defaultConfig]
    have hcomp : ("switch:0" : String) = "switch:0" := rfl
    simp only [onPowerSample, statusHandler, if_pos hcond, if_pos hcomp, resetAndStop_snd, hc,
      hn "MACHINE_AUTO_OFF" "YOUR_SCENE_ID_FOR_MACHINE_AUTO_OFF"
        (by simp [defaultConfig, List.lookup]) (by decide)]
    rfl

/-- C16: in the monitoring phase a power sample `p` with `p < POWER_ACTIVE_THRESHOLD` leaves the
whole state unchanged and issues nothing, also when `POWER_ON_THRESHOLD <= p`: the cycle is not
restarted and the monitoring start time is not reset. -/
theorem monitoring_sample_below_active_is_inert (cfg : Config) (s : State) (p : ℚ)
    (hphase : s.scriptState = Phase.MONITORING) (hp : p < cfg.POWER_ACTIVE_THRESHOLD) :
    onPowerSample cfg p s = (s, []) := by
  have h1 : ¬ (s.scriptState = Phase.MONITORING ∧ cfg.POWER_ACTIVE_THRESHOLD ≤ p) :=
    fun h => absurd h.2 (not_le.mpr hp)
  have h2 : ¬ s.scriptState = Phase.DELAY := by
    rw [hphase]
    decide
  have h3 : ¬ s.scriptState = Phase.IDLE := by
    rw [hphase]
    decide
  have hcomp : ("switch:0" : String) = "switch:0" := rfl
  simp only [onPowerSample, statusHandler, if_pos hcomp, if_neg h1, if_neg h2, if_neg h3]
  exact ite_self _

/-- Instances of the inert monitoring sample: in `exampleMonitoring` a sample of 0.5 W at the
source configuration, and a sample of 1 W (at least the power-on threshold 0.7 W) when the active
threshold is 5 W. -/
theorem monitoring_sample_below_active_is_inert_witness :
    (exampleMonitoring.scriptState = Phase.MONITORING
        ∧ (1 / 2 : ℚ) < defaultConfig.POWER_ACTIVE_THRESHOLD
        ∧ splitThresholdConfig.POWER_ON_THRESHOLD ≤ (1 : ℚ)
        ∧ (1 : ℚ) < splitThresholdConfig.POWER_ACTIVE_THRESHOLD)
      ∧ onPowerSample defaultConfig (1 / 2) exampleMonitoring = (exampleMonitoring, [])
      ∧ onPowerSample splitThresholdConfig 1 exampleMonitoring = (exampleMonitoring, []) :=
  have h1 : (1 / 2 : ℚ) < defaultConfig.POWER_ACTIVE_THRESHOLD := by
    norm_num [defaultConfig]
  have h2 : (1 : ℚ) < splitThresholdConfig.POWER_ACTIVE_THRESHOLD := by
    norm_num [splitThresholdConfig]
  have h3 : splitThresholdConfig.POWER_ON_THRESHOLD ≤ (1 : ℚ) := by
    norm_num [splitThresholdConfig, defaultConfig]
  ⟨⟨rfl, h1, h3, h2⟩,
    monitoring_sample_below_active_is_inert defaultConfig exampleMonitoring (1 / 2) rfl h1,
    monitoring_sample_below_active_is_inert splitThresholdConfig exampleMonitoring 1 rfl h2⟩

/-! ## Which calls a handler can issue -/

theorem sendPushNotification_isCloud (cfg : Config) (name : String) :
    ∀ e ∈ sendPushNotification cfg name, e.isCloud = true := by
  intro e he
  cases hid : sceneIdOf cfg name with
  | none =>
    rw [sendPushNotification_of_none cfg name hid] at he
    rw [List.mem_singleton.mp he]
    rfl
  | some sceneId =>
    rw [sendPushNotification_of_some cfg name sceneId hid] at he
    split at he
    · rw [List.mem_singleton.mp he]; rfl
    · rw [List.mem_singleton.mp he]; rfl

theorem controlSceneActivation_isCloud (cfg : Config) (name : String) (enable : Bool) :
    ∀ e ∈ controlSceneActivation cfg name enable, e.isCloud = true := by
  intro e he
  cases hid : sceneIdOf cfg name with
  | none =>
    rw [controlSceneActivation_of_none cfg name enable hid] at he
    rw [List.mem_singleton.mp he]
    rfl
  | some sceneId =>
    rw [controlSceneActivation_of_some cfg name sceneId enable hid] at he
    split at he
    · rw [List.mem_singleton.mp he]; rfl
    · rw [List.mem_singleton.mp he]; rfl

theorem filter_isSwitch_of_isCloud (l : List Effect) (h : ∀ e ∈ l, e.isCloud = true) :
    l.filter Effect.isSwitch = [] := by
  apply List.filter_eq_nil_iff.mpr
  intro e he
  have := h e he
  cases e <;> simp [Effect.isCloud, Effect.isSwitch] at this ⊢

theorem filter_isSwitch_sendPushNotification (cfg : Config) (name : String) :
    (sendPushNotification cfg name).filter Effect.isSwitch = [] :=
  filter_isSwitch_of_isCloud _ (sendPushNotification_isCloud cfg name)

theorem filter_isSwitch_controlSceneActivation (cfg : Config) (name : String) (enable : Bool) :
    (controlSceneActivation cfg name enable).filter Effect.isSwitch = [] :=
  filter_isSwitch_of_isCloud _ (controlSceneActivation_isCloud cfg name enable)

theorem filter_isSwitch_resetAndStop (s : State) :
    (resetAndStop s).2.filter Effect.isSwitch = [] := by
  rw [resetAndStop_snd]
  apply List.filter_eq_nil_iff.mpr
  intro e he
  obtain ⟨h, _, rfl⟩ := List.mem_map.mp he
  simp [Effect.isSwitch]

/-! ## The happy path -/

/-- C17: from the state after the top-level statements, handle in order a sample equal to
`POWER_ON_THRESHOLD`, a second such sample, the expiry of the main delay timer at clock reading
`t0`, and a poll tick at clock reading `t` with `t - t0 >= checkDuration`.  The machine is in
`DELAY` unconfirmed with the check timer armed after the first event, in `DELAY` confirmed with the
check timer cancelled after the second, in `MONITORING` started at `t0` after the third, and in
`IDLE` with the three timer handles null and no cycle timer pending after the fourth.  The first
three events issue no switch command, the fourth issues exactly `Switch.Set` with `on: false`, so
over the whole trace the relay is switched off exactly once. -/
theorem happy_path_switches_off_once (cfg : Config) (t0 t : Int)
    (hel : cfg.checkDuration ≤ ((t - t0 : Int) : ℚ)) :
    ∃ r1 r2 r3 r4 : State × List Effect,
      trace cfg
          [Event.status (StatusEvent.mk "switch:0" (some cfg.POWER_ON_THRESHOLD)),
           Event.status (StatusEvent.mk "switch:0" (some cfg.POWER_ON_THRESHOLD)),
           Event.timer (init cfg).1.nextHandle t0,
           Event.timer ((init cfg).1.nextHandle + 2) t]
          (init cfg).1 = [r1, r2, r3, r4]
        ∧ (r1.1.scriptState = Phase.DELAY ∧ r1.1.isHeatingConfirmed = false
            ∧ r1.1.initialTimerHandle = some (init cfg).1.nextHandle
            ∧ r1.1.initialCheckTimerHandle = some ((init cfg).1.nextHandle + 1))
        ∧ (r2.1.scriptState = Phase.DELAY ∧ r2.1.isHeatingConfirmed = true
            ∧ r2.1.initialCheckTimerHandle = none
            ∧ r2.2 = [Effect.timerClear ((init cfg).1.nextHandle + 1)]
            ∧ ∀ u ∈ r2.1.timers, u.callback ≠ Callback.handleInitialCheckTimeout)
        ∧ (r3.1.scriptState = Phase.MONITORING ∧ r3.1.isHeatingConfirmed = true
            ∧ r3.1.monitoringStartTime = t0
            ∧ r3.1.monitoringTimerHandle = some ((init cfg).1.nextHandle + 2))
        ∧ (r4.1.scriptState = Phase.IDLE ∧ r4.1.isHeatingConfirmed = false
            ∧ r4.1.initialTimerHandle = none ∧ r4.1.monitoringTimerHandle = none
            ∧ r4.1.initialCheckTimerHandle = none
            ∧ r4.1.timers = (init cfg).1.timers)
        ∧ (r1.2 ++ r2.2 ++ r3.2).filter Effect.isSwitch = []
        ∧ r4.2.filter Effect.isSwitch = [Effect.switchSet 0 false]
        ∧ (r1.2 ++ r2.2 ++ r3.2 ++ r4.2).filter Effect.isSwitch = [Effect.switchSet 0 false] := by
  have hel2 : cfg.checkDuration ≤ (t : ℚ) - (t0 : ℚ) := by
    simpa using hel
  refine ⟨_, _, _, _, rfl, ?_⟩
  cases hk : cfg.ENABLE_KEEP_ALIVE
  · simp [step, init, startKeepAliveTimer, hk, State.initial, Timer.set, statusHandler,
      startAutoOffCycle, fireTimer, runCallback, startMonitoring, Timer.clear, pollTick,
      resetAndStop, clearIfSet, hel2, List.filter_append, filter_isSwitch_sendPushNotification,
      filter_isSwitch_controlSceneActivation, Effect.isSwitch]
  · simp [step, init, startKeepAliveTimer, hk, State.initial, Timer.set, statusHandler,
      startAutoOffCycle, fireTimer, runCallback, startMonitoring, Timer.clear, pollTick,
      resetAndStop, clearIfSet, hel2, List.filter_append, filter_isSwitch_sendPushNotification,
      filter_isSwitch_controlSceneActivation, Effect.isSwitch]

/-- Instance of the happy path at the source configuration: power-on and confirming samples of
0.7 W, the delay timer (handle 1) expiring at clock reading 1800000 and the poll timer (handle 3)
ticking at 3000000, exactly `checkDuration` later.  The phases after the four events are `DELAY`,
`DELAY`, `MONITORING`, `IDLE`, and the only switch command of the trace is one switch-off. -/
theorem happy_path_switches_off_once_witness :
    defaultConfig.checkDuration ≤ (((3000000 : Int) - 1800000 : Int) : ℚ)
      ∧ (trace defaultConfig
            [Event.status (StatusEvent.mk "switch:0" (some defaultConfig.POWER_ON_THRESHOLD)),
             Event.status (StatusEvent.mk "switch:0" (some defaultConfig.POWER_ON_THRESHOLD)),
             Event.timer (init defaultConfig).1.nextHandle 1800000,
             Event.timer ((init defaultConfig).1.nextHandle + 2) 3000000]
            (init defaultConfig).1).map (fun r => r.1.scriptState)
          = [Phase.DELAY, Phase.DELAY, Phase.MONITORING, Phase.IDLE]
      ∧ ((trace defaultConfig
            [Event.status (StatusEvent.mk "switch:0" (some defaultConfig.POWER_ON_THRESHOLD)),
             Event.status (StatusEvent.mk "switch:0" (some defaultConfig.POWER_ON_THRESHOLD)),
             Event.timer (init defaultConfig).1.nextHandle 1800000,
             Event.timer ((init defaultConfig).1.nextHandle + 2) 3000000]
            (init defaultConfig).1).map Prod.snd).flatten.filter Effect.isSwitch
          = [Effect.switchSet 0 false] := by
  have hel : defaultConfig.checkDuration ≤ (((3000000 : Int) - 1800000 : Int) : ℚ) := by
    norm_num [defaultConfig, Config.checkDuration]
  obtain ⟨r1, r2, r3, r4, htr, h1, h2, h3, h4, _, _, hsw⟩ :=
    happy_path_switches_off_once defaultConfig 1800000 3000000 hel
  refine ⟨hel, ?_, ?_⟩
  · rw [htr]
    simp [h1.1, h2.1, h3.1, h4.1]
  · rw [htr]
    simpa [List.flatten, List.append_assoc] using hsw

/-! ## Independence from the notification layer -/

theorem filter_isMachine_of_isCloud (l : List Effect) (h : ∀ e ∈ l, e.isCloud = true) :
    l.filter Effect.isMachine = [] := by
  apply List.filter_eq_nil_iff.mpr
  intro e he
  simp [Effect.isMachine, h e he]

theorem filter_isMachine_sendPushNotification (cfg : Config) (name : String) :
    (sendPushNotification cfg name).filter Effect.isMachine = [] :=
  filter_isMachine_of_isCloud _ (sendPushNotification_isCloud cfg name)

theorem filter_isMachine_controlSceneActivation (cfg : Config) (name : String)
    (enable : Bool) :
    (controlSceneActivation cfg name enable).filter Effect.isMachine = [] :=
  filter_isMachine_of_isCloud _ (controlSceneActivation_isCloud cfg name enable)

theorem sameMachine_durations (a b : Config) (hm : SameMachine a b) :
    a.initialDelay = b.initialDelay ∧ a.checkDuration = b.checkDuration
      ∧ a.checkInterval = b.checkInterval
      ∧ a.initialCheckDuration = b.initialCheckDuration := by
  obtain ⟨_, h2, h3, h4, _, _, h7, _⟩ := hm
  simp [Config.initialDelay, Config.checkDuration, Config.checkInterval,
    Config.initialCheckDuration, h2, h3, h4, h7]

theorem startAutoOffCycle_agree (a b : Config) (hm : SameMachine a b) (s : State) :
    AgreeOnMachine (startAutoOffCycle a s) (startAutoOffCycle b s) := by
  obtain ⟨hd, _, _, hc⟩ := sameMachine_durations a b hm
  simp [AgreeOnMachine, startAutoOffCycle, Timer.set, hd, hc, List.filter_append,
    filter_isMachine_sendPushNotification, filter_isMachine_controlSceneActivation]

theorem handleInitialCheckTimeout_agree (a b : Config) (s : State) :
    AgreeOnMachine (handleInitialCheckTimeout a s) (handleInitialCheckTimeout b s) := by
  unfold handleInitialCheckTimeout
  split
  · simp [AgreeOnMachine, List.filter_append, filter_isMachine_controlSceneActivation]
  · exact ⟨rfl, rfl⟩

theorem pollTick_agree (a b : Config) (hm : SameMachine a b) (now : Int) (s : State) :
    AgreeOnMachine (pollTick a now s) (pollTick b now s) := by
  obtain ⟨_, hd, _, _⟩ := sameMachine_durations a b hm
  unfold pollTick
  simp only [hd]
  split
  · simp [AgreeOnMachine, List.filter_append, List.filter_cons, Effect.isMachine, Effect.isCloud, filter_isMachine_sendPushNotification,
      filter_isMachine_controlSceneActivation]
  · exact ⟨rfl, rfl⟩

theorem startMonitoring_agree (a b : Config) (hm : SameMachine a b) (now : Int) (s : State) :
    AgreeOnMachine (startMonitoring a now s) (startMonitoring b now s) := by
  obtain ⟨_, _, hi, _⟩ := sameMachine_durations a b hm
  cases hh : s.initialCheckTimerHandle <;>
    simp [AgreeOnMachine, startMonitoring, hh, Timer.set, Timer.clear, hi, List.filter_append,
      List.filter_cons, Effect.isMachine, Effect.isCloud,
      filter_isMachine_sendPushNotification]

theorem statusHandler_agree (a b : Config) (hm : SameMachine a b) (event : StatusEvent)
    (s : State) :
    AgreeOnMachine (statusHandler a event s) (statusHandler b event s) := by
  have hon : a.POWER_ON_THRESHOLD = b.POWER_ON_THRESHOLD := hm.2.2.2.2.1
  have hact : a.POWER_ACTIVE_THRESHOLD = b.POWER_ACTIVE_THRESHOLD := hm.2.2.2.2.2.1
  unfold statusHandler
  cases event.apower with
  | none => exact ⟨rfl, rfl⟩
  | some currentPower =>
    simp only [hon, hact]
    split
    · split
      · simp [AgreeOnMachine, List.filter_append, List.filter_cons, Effect.isMachine, Effect.isCloud, filter_isMachine_sendPushNotification,
          filter_isMachine_controlSceneActivation]
      · split
        · exact ⟨rfl, rfl⟩
        · split
          · split
            · exact startAutoOffCycle_agree a b hm s
            · exact ⟨rfl, rfl⟩
          · exact ⟨rfl, rfl⟩
    · exact ⟨rfl, rfl⟩

theorem fireTimer_agree (a b : Config) (hm : SameMachine a b) (h : Handle) (now : Int)
    (s : State) :
    AgreeOnMachine (fireTimer a h now s) (fireTimer b h now s) := by
  unfold fireTimer
  cases s.timers.find? (fun t => t.handle == h) with
  | none => exact ⟨rfl, rfl⟩
  | some t =>
    simp only
    cases t.callback with
    | startMonitoring => exact startMonitoring_agree a b hm now _
    | handleInitialCheckTimeout => exact handleInitialCheckTimeout_agree a b _
    | pollTick => exact pollTick_agree a b hm now _
    | keepAlive => exact ⟨rfl, rfl⟩

theorem startupStatusCallback_agree (a b : Config) (hm : SameMachine a b)
    (result : Option (Option ℚ)) (s : State) :
    AgreeOnMachine (startupStatusCallback a result s) (startupStatusCallback b result s) := by
  have hon : a.POWER_ON_THRESHOLD = b.POWER_ON_THRESHOLD := hm.2.2.2.2.1
  unfold startupStatusCallback
  split
  · simp only [hon]
    split
    · exact startAutoOffCycle_agree a b hm s
    · exact ⟨rfl, rfl⟩
  · exact ⟨rfl, rfl⟩
  · exact ⟨rfl, rfl⟩

/-- A completion callback returns the state it was given and issues nothing but a logged error. -/
theorem step_completed (cfg : Config) (call : Completion) (code : Int) (msg : String)
    (s : State) :
    (step cfg (Event.completed call code msg) s).1 = s
      ∧ (step cfg (Event.completed call code msg) s).2.filter Effect.isMachine = [] := by
  cases call with
  | notification name =>
    simp only [step, sendPushNotificationDone]
    split <;> simp [Effect.isMachine, Effect.isCloud]
  | scene name enable =>
    simp only [step, controlSceneActivationDone]
    split <;> simp [Effect.isMachine, Effect.isCloud]
  | switchSet =>
    simp only [step, switchSetDone]
    split <;> simp [Effect.isMachine, Effect.isCloud]

theorem step_agree (a b : Config) (hm : SameMachine a b) (e e' : Event)
    (he : e.machineInput = e'.machineInput) (s : State) :
    AgreeOnMachine (step a e s) (step b e' s) := by
  cases e with
  | status event =>
    cases e' <;> simp [Event.machineInput] at he
    subst he
    exact statusHandler_agree a b hm _ s
  | timer h now =>
    cases e' <;> simp [Event.machineInput] at he
    obtain ⟨rfl, rfl⟩ := he
    exact fireTimer_agree a b hm _ _ s
  | startup result =>
    cases e' <;> simp [Event.machineInput] at he
    subst he
    exact startupStatusCallback_agree a b hm _ s
  | completed call code msg =>
    cases e' <;> simp [Event.machineInput] at he
    rename_i call' code' msg'
    have h1 := step_completed a call code msg s
    have h2 := step_completed b call' code' msg' s
    exact ⟨h1.1.trans h2.1.symm, h1.2.trans h2.2.symm⟩

theorem filter_isSwitch_eq (l : List Effect) :
    l.filter Effect.isSwitch = (l.filter Effect.isMachine).filter Effect.isSwitch := by
  rw [List.filter_filter]
  apply List.filter_congr
  intro e _
  cases e <;> rfl

theorem trace_agree (a b : Config) (hm : SameMachine a b) :
    ∀ (evs evs' : List Event) (s : State),
      evs.map Event.machineInput = evs'.map Event.machineInput →
      (trace a evs s).map Prod.fst = (trace b evs' s).map Prod.fst
        ∧ (trace a evs s).map (fun r => r.2.filter Effect.isMachine)
            = (trace b evs' s).map (fun r => r.2.filter Effect.isMachine) := by
  intro evs
  induction evs with
  | nil =>
    intro evs' s he
    cases evs' with
    | nil => exact ⟨rfl, rfl⟩
    | cons e' es' => simp at he
  | cons e es ih =>
    intro evs' s he
    cases evs' with
    | nil => simp at he
    | cons e' es' =>
      simp only [List.map_cons, List.cons.injEq] at he
      have hstep := step_agree a b hm e e' he.1 s
      have hrest := ih es' (step a e s).1 he.2
      rw [hstep.1] at hrest
      simp only [trace, List.map_cons]
      rw [hstep.1, hstep.2, hrest.1, hrest.2]
      exact ⟨rfl, rfl⟩

theorem init_agree (a b : Config) (hm : SameMachine a b) : (init a).1 = (init b).1 := by
  obtain ⟨h1, _, _, _, _, _, _, h8⟩ := hm
  simp [init, startKeepAliveTimer, h1, h8]

/-- C18: take two configurations that agree on everything but the base URL, the authorisation key
and the scene mapping, and two event sequences that deliver the same status events, timer expiries
with the same clock readings and start-up results, and complete the same asynchronous calls but
possibly with different error codes and messages.  Started from the state after the top-level
statements, the two runs go through the same sequence of states, issue the same switch commands
and, more generally, the same calls outside the notification layer at every event.  A completion
callback returns the state unchanged whatever result it is given. -/
theorem state_machine_independent_of_cloud (a b : Config) (hm : SameMachine a b)
    (evs evs' : List Event)
    (hev : evs.map Event.machineInput = evs'.map Event.machineInput) :
    (init a).1 = (init b).1
      ∧ (trace a evs (init a).1).map Prod.fst = (trace b evs' (init b).1).map Prod.fst
      ∧ (trace a evs (init a).1).map (fun r => r.2.filter Effect.isSwitch)
          = (trace b evs' (init b).1).map (fun r => r.2.filter Effect.isSwitch)
      ∧ (trace a evs (init a).1).map (fun r => r.2.filter Effect.isMachine)
          = (trace b evs' (init b).1).map (fun r => r.2.filter Effect.isMachine)
      ∧ (∀ (cfg : Config) (call : Completion) (code : Int) (msg : String) (s : State),
          (step cfg (Event.completed call code msg) s).1 = s) := by
  have hi := init_agree a b hm
  have ht := trace_agree a b hm evs evs' (init a).1 hev
  rw [hi] at ht
  rw [hi]
  refine ⟨rfl, ht.1, ?_, ht.2, fun cfg call code msg s => (step_completed cfg call code msg s).1⟩
  have hmap : ∀ l : List (State × List Effect),
      l.map (fun r => r.2.filter Effect.isSwitch)
        = (l.map (fun r => r.2.filter Effect.isMachine)).map
            (fun es => es.filter Effect.isSwitch) := by
    intro l
    rw [List.map_map]
    apply List.map_congr_left
    intro r _
    exact filter_isSwitch_eq r.2
  rw [hmap, hmap, ht.2]

/-- Instance of the independence: the source configuration against the one with credentials filled
in, on a power-on sample followed by the completion of the `MACHINE_ON` request, successful in one
run and failed with code -1 in the other.  Both runs pass through the same states. -/
theorem state_machine_independent_of_cloud_witness :
    (SameMachine defaultConfig configuredConfig
        ∧ [Event.status (StatusEvent.mk "switch:0" (some (7 / 10))),
            Event.completed (Completion.notification "MACHINE_ON") 0 ""].map Event.machineInput
          = [Event.status (StatusEvent.mk "switch:0" (some (7 / 10))),
              Event.completed (Completion.notification "MACHINE_ON") (-1) "timeout"].map
              Event.machineInput)
      ∧ (trace defaultConfig
            [Event.status (StatusEvent.mk "switch:0" (some (7 / 10))),
             Event.completed (Completion.notification "MACHINE_ON") 0 ""]
            (init defaultConfig).1).map Prod.fst
          = (trace configuredConfig
              [Event.status (StatusEvent.mk "switch:0" (some (7 / 10))),
               Event.completed (Completion.notification "MACHINE_ON") (-1) "timeout"]
              (init configuredConfig).1).map Prod.fst :=
  have hm : SameMachine defaultConfig configuredConfig :=
    ⟨rfl, rfl, rfl, rfl, rfl, rfl, rfl, rfl⟩
  ⟨⟨hm, rfl⟩, (state_machine_independent_of_cloud defaultConfig configuredConfig hm _ _ rfl).2.1⟩

/-! ## Where the relay is switched -/

theorem not_mem_of_filter_isSwitch_nil (l : List Effect) (h : l.filter Effect.isSwitch = [])
    (id : Nat) (isOn : Bool) : Effect.switchSet id isOn ∉ l := by
  intro hmem
  have : Effect.switchSet id isOn ∈ l.filter Effect.isSwitch :=
    List.mem_filter.mpr ⟨hmem, rfl⟩
  rw [h] at this
  exact absurd this (List.not_mem_nil _)

theorem filter_isSwitch_startAutoOffCycle (cfg : Config) (s : State) :
    (startAutoOffCycle cfg s).2.filter Effect.isSwitch = [] := by
  by_cases hidle : s.scriptState = Phase.IDLE
  · simp [startAutoOffCycle, hidle, Timer.set, List.filter_append, List.filter_cons,
      Effect.isSwitch, filter_isSwitch_sendPushNotification,
      filter_isSwitch_controlSceneActivation]
  · simp [startAutoOffCycle, hidle, Timer.set, List.filter_append, List.filter_cons,
      Effect.isSwitch, filter_isSwitch_sendPushNotification,
      filter_isSwitch_controlSceneActivation, filter_isSwitch_resetAndStop]

theorem filter_isSwitch_startMonitoring (cfg : Config) (now : Int) (s : State) :
    (startMonitoring cfg now s).2.filter Effect.isSwitch = [] := by
  cases hh : s.initialCheckTimerHandle <;>
    simp [startMonitoring, hh, Timer.set, Timer.clear, List.filter_append, List.filter_cons,
      Effect.isSwitch, filter_isSwitch_sendPushNotification]

theorem filter_isSwitch_handleInitialCheckTimeout (cfg : Config) (s : State) :
    (handleInitialCheckTimeout cfg s).2.filter Effect.isSwitch = [] := by
  unfold handleInitialCheckTimeout
  split
  · simp [List.filter_append, filter_isSwitch_controlSceneActivation,
      filter_isSwitch_resetAndStop]
  · rfl

/-- A switch command in the calls of the poll callback is the switch-off of the standby branch. -/
theorem mem_pollTick_switch (cfg : Config) (now : Int) (s : State) (id : Nat) (isOn : Bool)
    (hmem : Effect.switchSet id isOn ∈ (pollTick cfg now s).2) :
    id = 0 ∧ isOn = false
      ∧ cfg.checkDuration ≤ ((now - s.monitoringStartTime : Int) : ℚ) := by
  unfold pollTick at hmem
  simp only at hmem
  split at hmem
  · rename_i hel
    simp only [List.mem_append, List.mem_singleton] at hmem
    rcases hmem with ((hm | hm) | hm) | hm
    · exact absurd hm
        (not_mem_of_filter_isSwitch_nil _ (filter_isSwitch_sendPushNotification cfg _) id isOn)
    · simp only [Effect.switchSet.injEq] at hm
      exact ⟨hm.1, hm.2, hel⟩
    · exact absurd hm
        (not_mem_of_filter_isSwitch_nil _ (filter_isSwitch_controlSceneActivation cfg _ _)
          id isOn)
    · exact absurd hm (not_mem_of_filter_isSwitch_nil _ (filter_isSwitch_resetAndStop s) id isOn)
  · exact absurd hmem (List.not_mem_nil _)

/-- A switch command in the calls of the status handler is the switch-off of the emergency
branch. -/
theorem mem_statusHandler_switch (cfg : Config) (event : StatusEvent) (s : State) (id : Nat)
    (isOn : Bool) (hmem : Effect.switchSet id isOn ∈ (statusHandler cfg event s).2) :
    id = 0 ∧ isOn = false ∧ s.scriptState = Phase.MONITORING
      ∧ event.component = "switch:0"
      ∧ ∃ p, event.apower = some p ∧ cfg.POWER_ACTIVE_THRESHOLD ≤ p := by
  unfold statusHandler at hmem
  cases hap : event.apower with
  | none =>
    simp only [hap] at hmem
    exact absurd hmem (List.not_mem_nil _)
  | some currentPower =>
    simp only [hap] at hmem
    split at hmem
    · rename_i hcomp
      split at hmem
      · rename_i hmon
        simp only [List.mem_append, List.mem_singleton] at hmem
        rcases hmem with ((hm | hm) | hm) | hm
        · simp only [Effect.switchSet.injEq] at hm
          exact ⟨hm.1, hm.2, hmon.1, hcomp, currentPower, rfl, hmon.2⟩
        · exact absurd hm
            (not_mem_of_filter_isSwitch_nil _ (filter_isSwitch_sendPushNotification cfg _)
              id isOn)
        · exact absurd hm
            (not_mem_of_filter_isSwitch_nil _ (filter_isSwitch_controlSceneActivation cfg _ _)
              id isOn)
        · exact absurd hm
            (not_mem_of_filter_isSwitch_nil _ (filter_isSwitch_resetAndStop s) id isOn)
      · split at hmem
        · cases hh : s.initialCheckTimerHandle with
          | none =>
            simp only [hh] at hmem
            exact absurd hmem (List.not_mem_nil _)
          | some h =>
            simp only [hh] at hmem
            split at hmem
            · simp [Timer.clear] at hmem
            · exact absurd hmem (List.not_mem_nil _)
        · split at hmem
          · split at hmem
            · exact absurd hmem
                (not_mem_of_filter_isSwitch_nil _ (filter_isSwitch_startAutoOffCycle cfg s)
                  id isOn)
            · exact absurd hmem (List.not_mem_nil _)
          · exact absurd hmem (List.not_mem_nil _)
    · exact absurd hmem (List.not_mem_nil _)

/-- A switch command in the calls of a timer expiry, in a state whose variables agree with the
timer table, is the switch-off of the poll callback, run in phase `MONITORING`. -/
theorem mem_fireTimer_switch (cfg : Config) (h : Handle) (now : Int) (s : State)
    (hc : Consistent s) (id : Nat) (isOn : Bool)
    (hmem : Effect.switchSet id isOn ∈ (fireTimer cfg h now s).2) :
    id = 0 ∧ isOn = false ∧ s.scriptState = Phase.MONITORING
      ∧ (∃ t ∈ s.timers, t.handle = h ∧ t.callback = Callback.pollTick)
      ∧ cfg.checkDuration ≤ ((now - s.monitoringStartTime : Int) : ℚ) := by
  unfold fireTimer at hmem
  cases hf : s.timers.find? (fun t => t.handle == h) with
  | none =>
    simp only [hf] at hmem
    exact absurd hmem (List.not_mem_nil _)
  | some t =>
    have htm : t ∈ s.timers := List.mem_of_find?_eq_some hf
    have hth : t.handle = h := by simpa using List.find?_some hf
    simp only [hf] at hmem
    cases hcb : t.callback with
    | startMonitoring =>
      simp only [hcb, runCallback] at hmem
      exact absurd hmem
        (not_mem_of_filter_isSwitch_nil _ (filter_isSwitch_startMonitoring cfg now _) id isOn)
    | handleInitialCheckTimeout =>
      simp only [hcb, runCallback] at hmem
      exact absurd hmem
        (not_mem_of_filter_isSwitch_nil _ (filter_isSwitch_handleInitialCheckTimeout cfg _)
          id isOn)
    | pollTick =>
      simp only [hcb, runCallback] at hmem
      have hp := mem_pollTick_switch cfg now _ id isOn hmem
      have hst : (if t.repeating then s
          else { s with timers := s.timers.filter (fun u => u.handle != h) }).monitoringStartTime
            = s.monitoringStartTime := by
        split <;> rfl
      rw [hst] at hp
      exact ⟨hp.1, hp.2.1, hc.poll_phase _ (hc.pending_poll t htm hcb), ⟨t, htm, hth, hcb⟩,
        hp.2.2⟩
    | keepAlive =>
      simp [hcb, runCallback, keepAliveTick] at hmem

/-- C19: along every run from the state after the top-level statements, driven by status events
and expiries of pending timers, every `Switch.Set` command is a switch-off of relay 0 issued while
the phase is `MONITORING`: by the status handler on a sample with `p >= POWER_ACTIVE_THRESHOLD`,
or by the poll callback with `elapsed >= checkDuration`.  No event handled in `IDLE` or `DELAY`
issues a switch command, and no switch-on command is ever issued. -/
theorem relay_switched_off_only_in_monitoring (cfg : Config) (s : State)
    (hr : Reachable cfg s) :
    (∀ event id isOn, Effect.switchSet id isOn ∈ (statusHandler cfg event s).2 →
        id = 0 ∧ isOn = false ∧ s.scriptState = Phase.MONITORING
          ∧ event.component = "switch:0"
          ∧ ∃ p, event.apower = some p ∧ cfg.POWER_ACTIVE_THRESHOLD ≤ p)
      ∧ (∀ h now id isOn, Effect.switchSet id isOn ∈ (fireTimer cfg h now s).2 →
          id = 0 ∧ isOn = false ∧ s.scriptState = Phase.MONITORING
            ∧ (∃ t ∈ s.timers, t.handle = h ∧ t.callback = Callback.pollTick)
            ∧ cfg.checkDuration ≤ ((now - s.monitoringStartTime : Int) : ℚ))
      ∧ (s.scriptState ≠ Phase.MONITORING →
          (∀ event, (statusHandler cfg event s).2.filter Effect.isSwitch = [])
            ∧ ∀ h now, (fireTimer cfg h now s).2.filter Effect.isSwitch = []) := by
  have hc := reachable_consistent cfg s hr
  refine ⟨fun event id isOn hm => mem_statusHandler_switch cfg event s id isOn hm,
    fun h now id isOn hm => mem_fireTimer_switch cfg h now s hc id isOn hm, ?_⟩
  intro hph
  refine ⟨?_, ?_⟩
  · intro event
    apply List.filter_eq_nil_iff.mpr
    intro e he hsw
    cases e with
    | switchSet id isOn => exact hph (mem_statusHandler_switch cfg event s id isOn he).2.2.1
    | httpGet _ => simp [Effect.isSwitch] at hsw
    | getStatus _ => simp [Effect.isSwitch] at hsw
    | printError _ => simp [Effect.isSwitch] at hsw
    | timerSet _ _ _ _ => simp [Effect.isSwitch] at hsw
    | timerClear _ => simp [Effect.isSwitch] at hsw
  · intro h now
    apply List.filter_eq_nil_iff.mpr
    intro e he hsw
    cases e with
    | switchSet id isOn => exact hph (mem_fireTimer_switch cfg h now s hc id isOn he).2.2.1
    | httpGet _ => simp [Effect.isSwitch] at hsw
    | getStatus _ => simp [Effect.isSwitch] at hsw
    | printError _ => simp [Effect.isSwitch] at hsw
    | timerSet _ _ _ _ => simp [Effect.isSwitch] at hsw
    | timerClear _ => simp [Effect.isSwitch] at hsw

/-- Instances at the source configuration: in `exampleMonitoring` a sample of 1 W issues the
switch-off, and the theorem places it in phase `MONITORING`; in `exampleDelay` neither that sample
nor the expiry of the check timer issues a switch command. -/
theorem relay_switched_off_only_in_monitoring_witness :
    (Reachable defaultConfig exampleMonitoring
        ∧ Effect.switchSet 0 false
            ∈ (statusHandler defaultConfig (StatusEvent.mk "switch:0" (some 1))
                exampleMonitoring).2
        ∧ Reachable defaultConfig exampleDelay
        ∧ exampleDelay.scriptState ≠ Phase.MONITORING)
      ∧ exampleMonitoring.scriptState = Phase.MONITORING
      ∧ (statusHandler defaultConfig (StatusEvent.mk "switch:0" (some 1))
            exampleDelay).2.filter Effect.isSwitch = []
      ∧ (fireTimer defaultConfig 2 900000 exampleDelay).2.filter Effect.isSwitch = [] := by
  have hmem : Effect.switchSet 0 false
      ∈ (statusHandler defaultConfig (StatusEvent.mk "switch:0" (some 1))
          exampleMonitoring).2 := by
    have hcond : exampleMonitoring.scriptState = Phase.MONITORING
        ∧ defaultConfig.POWER_ACTIVE_THRESHOLD ≤ (1 : ℚ) := by
      refine ⟨rfl, ?_⟩
      norm_num [defaultConfig]
    have hcomp : ("switch:0" : String) = "switch:0" := rfl
    simp only [statusHandler, if_pos hcond, if_pos hcomp]
    simp
  have hne : exampleDelay.scriptState ≠ Phase.MONITORING := by decide
  have a := relay_switched_off_only_in_monitoring defaultConfig exampleMonitoring
    exampleMonitoring_reachable
  have b := relay_switched_off_only_in_monitoring defaultConfig exampleDelay
    exampleDelay_reachable
  exact ⟨⟨exampleMonitoring_reachable, hmem, exampleDelay_reachable, hne⟩,
    (a.1 _ 0 false hmem).2.2.1, (b.2.2 hne).1 _, (b.2.2 hne).2 2 900000⟩

/-! ## Runs in which timers fire in the order of their due times -/

theorem orderedReachable_reachable (cfg : Config) (s : State) (due : Handle → ℚ)
    (h : OrderedReachable cfg s due) : Reachable cfg s := by
  induction h with
  | start τ => exact Reachable.start
  | startup τ τ' result => exact Reachable.startup result
  | status event τ s due _ ih => exact Reachable.status event s ih
  | timer h now τ s due t _ _ _ ih => exact Reachable.timer h now s ih

theorem dueAfter_old (due : Handle → ℚ) (τ : ℚ) (old new : State) (h : Handle)
    (hlt : h < old.nextHandle) : dueAfter due τ old new h = due h := by
  simp [dueAfter, Nat.not_le.mpr hlt]

theorem find_none_of_fresh (l : List TimerEntry) (n k : Nat)
    (hfresh : ∀ t ∈ l, t.handle < n) (hk : n ≤ k) :
    l.find? (fun t => t.handle == k) = none := by
  apply List.find?_eq_none.mpr
  intro t ht
  have hlt := hfresh t ht
  have hne : t.handle ≠ k := by
    intro e
    rw [e] at hlt
    exact absurd hlt (Nat.not_lt.mpr hk)
  simpa using hne

/-- A state in phase `IDLE` with fresh and distinct handles is guarded, whatever the due times. -/
theorem guarded_of_idle (s : State) (due : Handle → ℚ)
    (hfresh : ∀ t ∈ s.timers, t.handle < s.nextHandle)
    (huniq : ∀ t ∈ s.timers, ∀ u ∈ s.timers, t.handle = u.handle → t = u)
    (hidle : s.scriptState = Phase.IDLE) : Guarded s due := by
  constructor
  · exact hfresh
  · exact huniq
  · intro h
    rw [hidle] at h
    exact absurd h (by decide)
  · intro h
    rw [hidle] at h
    exact absurd h (by decide)

theorem guarded_resetAndStop (s : State) (due : Handle → ℚ)
    (hfresh : ∀ t ∈ s.timers, t.handle < s.nextHandle)
    (huniq : ∀ t ∈ s.timers, ∀ u ∈ s.timers, t.handle = u.handle → t = u) :
    Guarded (resetAndStop s).1 due := by
  apply guarded_of_idle
  · intro t ht
    have hm := (mem_resetAndStop_timers s t).mp ht
    have : (resetAndStop s).1.nextHandle = s.nextHandle := by rw [resetAndStop_fst]
    rw [this]
    exact hfresh t hm.1
  · intro t ht u hu
    exact huniq t ((mem_resetAndStop_timers s t).mp ht).1 u
      ((mem_resetAndStop_timers s u).mp hu).1
  · exact resetAndStop_phase s

theorem periodOf_new_delay (cfg : Config) (l : List TimerEntry) (n : Nat)
    (hfresh : ∀ t ∈ l, t.handle < n) :
    periodOf (l ++ [TimerEntry.mk n cfg.initialDelay false Callback.startMonitoring,
        TimerEntry.mk (n + 1) cfg.initialCheckDuration false Callback.handleInitialCheckTimeout])
      n = cfg.initialDelay := by
  simp [periodOf, List.find?_append, find_none_of_fresh l n n hfresh (Nat.le_refl n)]

theorem periodOf_new_check (cfg : Config) (l : List TimerEntry) (n : Nat)
    (hfresh : ∀ t ∈ l, t.handle < n) :
    periodOf (l ++ [TimerEntry.mk n cfg.initialDelay false Callback.startMonitoring,
        TimerEntry.mk (n + 1) cfg.initialCheckDuration false Callback.handleInitialCheckTimeout])
      (n + 1) = cfg.initialCheckDuration := by
  simp [periodOf, List.find?_append, find_none_of_fresh l n (n + 1) hfresh (Nat.le_succ n)]

/-- Starting a cycle from phase `IDLE` at time `τ` arms the check timer to be due before the main
delay timer, provided `initialCheckDuration < initialDelay`. -/
theorem guarded_startAutoOffCycle (cfg : Config)
    (hlt : cfg.initialCheckDuration < cfg.initialDelay) (s : State) (due : Handle → ℚ) (τ : ℚ)
    (hfresh : ∀ t ∈ s.timers, t.handle < s.nextHandle)
    (huniq : ∀ t ∈ s.timers, ∀ u ∈ s.timers, t.handle = u.handle → t = u)
    (hc : Consistent s) (hidle : s.scriptState = Phase.IDLE) :
    Guarded (startAutoOffCycle cfg s).1 (dueAfter due τ s (startAutoOffCycle cfg s).1) := by
  rw [startAutoOffCycle_fst_of_idle cfg s hidle]
  have hmem : ∀ t, t ∈ s.timers ++
      [TimerEntry.mk s.nextHandle cfg.initialDelay false Callback.startMonitoring,
       TimerEntry.mk (s.nextHandle + 1) cfg.initialCheckDuration false
         Callback.handleInitialCheckTimeout] →
      t ∈ s.timers
        ∨ t = TimerEntry.mk s.nextHandle cfg.initialDelay false Callback.startMonitoring
        ∨ t = TimerEntry.mk (s.nextHandle + 1) cfg.initialCheckDuration false
            Callback.handleInitialCheckTimeout := by
    intro t ht
    simpa using ht
  constructor
  · intro t ht
    rcases hmem t ht with h | rfl | rfl
    · exact Nat.lt_of_lt_of_le (hfresh t h) (Nat.le_add_right _ 2)
    · exact Nat.lt_add_of_pos_right (by decide)
    · exact Nat.lt_succ_self _
  · intro t ht u hu he
    rcases hmem t ht with h | rfl | rfl <;> rcases hmem u hu with k | rfl | rfl
    · exact huniq t h u k he
    · have := hfresh t h
      simp only at he
      rw [he] at this
      exact absurd this (Nat.lt_irrefl _)
    · have := hfresh t h
      simp only at he
      rw [he] at this
      exact absurd this (Nat.not_lt.mpr (Nat.le_succ _))
    · have := hfresh u k
      simp only at he
      rw [← he] at this
      exact absurd this (Nat.lt_irrefl _)
    · rfl
    · simp at he
    · have := hfresh u k
      simp only at he
      rw [← he] at this
      exact absurd this (Nat.not_lt.mpr (Nat.le_succ _))
    · simp at he
    · rfl
  · intro h
    exact absurd h (by simp)
  · intro _ _
    refine ⟨TimerEntry.mk (s.nextHandle + 1) cfg.initialCheckDuration false
      Callback.handleInitialCheckTimeout, by simp, rfl, ?_⟩
    intro td htd hcb
    rcases hmem td htd with h | rfl | rfl
    · have := (hc.pending_delay td h hcb).2.1
      rw [hidle] at this
      exact absurd this (by decide)
    · simp only [dueAfter, Nat.le_succ, Nat.le_refl, if_true]
      rw [periodOf_new_check cfg s.timers s.nextHandle hfresh,
        periodOf_new_delay cfg s.timers s.nextHandle hfresh]
      exact add_lt_add_left hlt τ
    · exact absurd hcb (by simp)

/-- The state after a status event is the state before it, the reset state, the state with the
cycle confirmed and the check timer cancelled, or the state after a cycle start from `IDLE`. -/
theorem statusHandler_cases (cfg : Config) (event : StatusEvent) (s : State) :
    (statusHandler cfg event s).1 = s
      ∨ (statusHandler cfg event s).1 = (resetAndStop s).1
      ∨ (∃ h, s.scriptState = Phase.DELAY
          ∧ (statusHandler cfg event s).1 =
              { s with
                isHeatingConfirmed := true,
                initialCheckTimerHandle := none,
                timers := s.timers.filter (fun t => t.handle != h) })
      ∨ (s.scriptState = Phase.IDLE
          ∧ (statusHandler cfg event s).1 = (startAutoOffCycle cfg s).1) := by
  unfold statusHandler
  cases event.apower with
  | none => exact Or.inl rfl
  | some currentPower =>
    simp only
    split
    · split
      · exact Or.inr (Or.inl rfl)
      · split
        · rename_i hdelay
          cases hh : s.initialCheckTimerHandle with
          | none => exact Or.inl rfl
          | some h =>
            simp only
            split
            · exact Or.inr (Or.inr (Or.inl ⟨h, hdelay, rfl⟩))
            · exact Or.inl rfl
        · split
          · split
            · rename_i hidle
              exact Or.inr (Or.inr (Or.inr ⟨hidle, rfl⟩))
            · exact Or.inl rfl
          · exact Or.inl rfl
    · exact Or.inl rfl

/-- The guard only looks at the due times of pending timers. -/
theorem guarded_congr (s : State) (due due' : Handle → ℚ) (hg : Guarded s due)
    (heq : ∀ t ∈ s.timers, due' t.handle = due t.handle) : Guarded s due' := by
  constructor
  · exact hg.fresh
  · exact hg.uniq
  · exact hg.confirmed_monitoring
  · intro hd hf
    obtain ⟨tc, htc, hcb, hlt⟩ := hg.check_first hd hf
    refine ⟨tc, htc, hcb, ?_⟩
    intro td htd hcbd
    rw [heq tc htc, heq td htd]
    exact hlt td htd hcbd

/-- A confirmed state with fresh and distinct handles is guarded, whatever the due times. -/
theorem guarded_of_flag (s : State) (due : Handle → ℚ)
    (hfresh : ∀ t ∈ s.timers, t.handle < s.nextHandle)
    (huniq : ∀ t ∈ s.timers, ∀ u ∈ s.timers, t.handle = u.handle → t = u)
    (hflag : s.isHeatingConfirmed = true) : Guarded s due := by
  constructor
  · exact hfresh
  · exact huniq
  · exact fun _ => hflag
  · intro _ hf
    rw [hflag] at hf
    exact absurd hf (by decide)

theorem guarded_statusHandler (cfg : Config)
    (hlt : cfg.initialCheckDuration < cfg.initialDelay) (event : StatusEvent) (τ : ℚ)
    (s : State) (due : Handle → ℚ) (hg : Guarded s due) (hc : Consistent s) :
    Guarded (statusHandler cfg event s).1 (dueAfter due τ s (statusHandler cfg event s).1) := by
  rcases statusHandler_cases cfg event s with h | h | ⟨k, _, h⟩ | ⟨hidle, h⟩
  · rw [h]
    apply guarded_congr s due _ hg
    intro t ht
    exact dueAfter_old due τ s s t.handle (hg.fresh t ht)
  · rw [h]
    exact guarded_resetAndStop s _ hg.fresh hg.uniq
  · rw [h]
    apply guarded_of_flag
    · intro t ht
      exact hg.fresh t ((mem_filter_handle s.timers k t).mp ht).1
    · intro t ht u hu
      exact hg.uniq t ((mem_filter_handle s.timers k t).mp ht).1 u
        ((mem_filter_handle s.timers k u).mp hu).1
    · rfl
  · rw [h]
    exact guarded_startAutoOffCycle cfg hlt s due τ hg.fresh hg.uniq hc hidle

theorem fireTimer_of_find (cfg : Config) (h : Handle) (now : Int) (s : State) (t : TimerEntry)
    (hf : s.timers.find? (fun u => u.handle == h) = some t) :
    fireTimer cfg h now s =
      runCallback cfg t.callback now
        (if t.repeating then s
          else { s with timers := s.timers.filter (fun u => u.handle != h) }) := by
  simp only [fireTimer, hf]

/-- The state in which the callback of an expiring timer runs differs from the state before the
expiry at most by the one-shot timer that left the table. -/
theorem expiry_prelude (s : State) (h : Handle) (t : TimerEntry) :
    (if t.repeating then s
        else { s with timers := s.timers.filter (fun u => u.handle != h) }).scriptState
        = s.scriptState
      ∧ (if t.repeating then s
          else { s with timers := s.timers.filter (fun u => u.handle != h) }).isHeatingConfirmed
          = s.isHeatingConfirmed
      ∧ (if t.repeating then s
          else { s with timers := s.timers.filter (fun u => u.handle != h) }).nextHandle
          = s.nextHandle
      ∧ (∀ u ∈ (if t.repeating then s
            else { s with timers := s.timers.filter (fun u => u.handle != h) }).timers,
          u ∈ s.timers)
      ∧ (∀ u ∈ s.timers, u.handle ≠ h →
          u ∈ (if t.repeating then s
            else { s with timers := s.timers.filter (fun u => u.handle != h) }).timers) := by
  split
  · exact ⟨rfl, rfl, rfl, fun u hu => hu, fun u hu _ => hu⟩
  · refine ⟨rfl, rfl, rfl, ?_, ?_⟩
    · intro u hu
      exact ((mem_filter_handle s.timers h u).mp hu).1
    · intro u hu hne
      exact (mem_filter_handle s.timers h u).mpr ⟨hu, hne⟩

theorem startMonitoring_timers (cfg : Config) (now : Int) (s : State) :
    (startMonitoring cfg now s).1.timers =
      s.timers.filter (fun t => s.initialCheckTimerHandle ≠ some t.handle)
        ++ [TimerEntry.mk s.nextHandle cfg.checkInterval true Callback.pollTick] := by
  cases hh : s.initialCheckTimerHandle with
  | none => simp [startMonitoring, hh, Timer.set]
  | some h =>
    have hf : s.timers.filter (fun t => t.handle != h)
        = s.timers.filter (fun t => decide (¬ h = t.handle)) := by
      apply List.filter_congr
      intro t _
      by_cases hx : t.handle = h
      · simp [hx]
      · have : ¬ h = t.handle := fun e => hx e.symm
        simp [hx, this]
    simp [startMonitoring, hh, Timer.set, Timer.clear, hf]

theorem startMonitoring_nextHandle (cfg : Config) (now : Int) (s : State) :
    (startMonitoring cfg now s).1.nextHandle = s.nextHandle + 1 := by
  cases hh : s.initialCheckTimerHandle <;> simp [startMonitoring, hh, Timer.set, Timer.clear]

/-- Entering the monitoring phase from a confirmed state keeps the guard. -/
theorem guarded_startMonitoring (cfg : Config) (now : Int) (s : State) (due : Handle → ℚ)
    (hfresh : ∀ t ∈ s.timers, t.handle < s.nextHandle)
    (huniq : ∀ t ∈ s.timers, ∀ u ∈ s.timers, t.handle = u.handle → t = u)
    (hflag : s.isHeatingConfirmed = true) :
    Guarded (startMonitoring cfg now s).1 due := by
  have hmem : ∀ t ∈ (startMonitoring cfg now s).1.timers,
      t ∈ s.timers ∨ t = TimerEntry.mk s.nextHandle cfg.checkInterval true Callback.pollTick := by
    intro t ht
    rw [startMonitoring_timers, List.mem_append, List.mem_filter] at ht
    rcases ht with ht | ht
    · exact Or.inl ht.1
    · exact Or.inr (by simpa using ht)
  apply guarded_of_flag
  · intro t ht
    rw [startMonitoring_nextHandle]
    rcases hmem t ht with h | rfl
    · exact Nat.lt_succ_of_lt (hfresh t h)
    · exact Nat.lt_succ_self _
  · intro t ht u hu he
    rcases hmem t ht with h | rfl <;> rcases hmem u hu with k | rfl
    · exact huniq t h u k he
    · have := hfresh t h
      simp only at he
      rw [he] at this
      exact absurd this (Nat.lt_irrefl _)
    · have := hfresh u k
      simp only at he
      rw [← he] at this
      exact absurd this (Nat.lt_irrefl _)
    · rfl
  · rw [startMonitoring_flag]
    exact hflag

theorem guarded_fireTimer (cfg : Config) (h : Handle) (now : Int) (τ : ℚ) (s : State)
    (due : Handle → ℚ) (t : TimerEntry) (hg : Guarded s due) (hc : Consistent s)
    (hf : s.timers.find? (fun u => u.handle == h) = some t)
    (hmin : ∀ u ∈ s.timers, due h ≤ due u.handle) :
    Guarded (fireTimer cfg h now s).1
      (dueAfter (dueRearm due τ s h) τ s (fireTimer cfg h now s).1) := by
  have htm : t ∈ s.timers := List.mem_of_find?_eq_some hf
  have hth : t.handle = h := by simpa using List.find?_some hf
  rw [fireTimer_of_find cfg h now s t hf]
  obtain ⟨hp1, hp2, hp3, hp4, hp5⟩ := expiry_prelude s h t
  generalize (if t.repeating then s
    else { s with timers := s.timers.filter (fun u => u.handle != h) }) = s1
    at hp1 hp2 hp3 hp4 hp5 ⊢
  have hfresh1 : ∀ u ∈ s1.timers, u.handle < s1.nextHandle := by
    intro u hu
    rw [hp3]
    exact hg.fresh u (hp4 u hu)
  have huniq1 : ∀ u ∈ s1.timers, ∀ v ∈ s1.timers, u.handle = v.handle → u = v :=
    fun u hu v hv => hg.uniq u (hp4 u hu) v (hp4 v hv)
  cases hcb : t.callback with
  | startMonitoring =>
    simp only [runCallback]
    have hd := hc.pending_delay t htm hcb
    have hflag : s.isHeatingConfirmed = true := by
      cases hfl : s.isHeatingConfirmed with
      | true => rfl
      | false =>
        obtain ⟨tc, htc, _, hlt⟩ := hg.check_first hd.2.1 hfl
        have h1 := hlt t htm hcb
        have h2 := hmin tc htc
        rw [hth] at h1
        exact absurd (lt_of_lt_of_le h1 h2) (lt_irrefl _)
    exact guarded_startMonitoring cfg now s1 _ hfresh1 huniq1 (hp2.trans hflag)
  | handleInitialCheckTimeout =>
    simp only [runCallback]
    unfold handleInitialCheckTimeout
    split
    · have e : ({ (resetAndStop s1).1 with initialCheckTimerHandle := none } : State)
          = (resetAndStop s1).1 := by
        rw [resetAndStop_fst]
      simp only
      rw [e]
      exact guarded_resetAndStop s1 _ hfresh1 huniq1
    · rename_i hfl
      apply guarded_of_flag
      · exact hfresh1
      · exact huniq1
      · simpa using hfl
  | pollTick =>
    simp only [runCallback]
    have hm := hc.poll_phase _ (hc.pending_poll t htm hcb)
    unfold pollTick
    simp only
    split
    · exact guarded_resetAndStop s1 _ hfresh1 huniq1
    · constructor
      · exact hfresh1
      · exact huniq1
      · exact fun _ => hp2.trans (hg.confirmed_monitoring hm)
      · intro hd
        rw [hp1, hm] at hd
        exact absurd hd (by decide)
  | keepAlive =>
    simp only [runCallback, keepAliveTick]
    have hne : ∀ u ∈ s.timers, u.callback ≠ Callback.keepAlive → u.handle ≠ h := by
      intro u hu hcu heq
      have := hg.uniq u hu t htm (heq.trans hth.symm)
      rw [this] at hcu
      exact hcu hcb
    have hdue : ∀ u ∈ s.timers, u.callback ≠ Callback.keepAlive →
        dueAfter (dueRearm due τ s h) τ s s1 u.handle = due u.handle := by
      intro u hu hcu
      rw [dueAfter_old _ _ _ _ _ (hg.fresh u hu)]
      simp [dueRearm, hne u hu hcu]
    constructor
    · exact hfresh1
    · exact huniq1
    · intro hm
      rw [hp1] at hm
      exact hp2.trans (hg.confirmed_monitoring hm)
    · intro hd hfl
      rw [hp1] at hd
      rw [hp2] at hfl
      obtain ⟨tc, htc, hcbc, hlt⟩ := hg.check_first hd hfl
      have hck : tc.callback ≠ Callback.keepAlive := by
        rw [hcbc]
        decide
      refine ⟨tc, hp5 tc htc (hne tc htc hck), hcbc, ?_⟩
      intro td htd hcbd
      have hdk : td.callback ≠ Callback.keepAlive := by
        rw [hcbd]
        decide
      rw [hdue tc htc hck, hdue td (hp4 td htd) hdk]
      exact hlt td (hp4 td htd) hcbd

theorem init_fresh (cfg : Config) :
    (∀ t ∈ (init cfg).1.timers, t.handle < (init cfg).1.nextHandle)
      ∧ ∀ t ∈ (init cfg).1.timers, ∀ u ∈ (init cfg).1.timers, t.handle = u.handle → t = u := by
  cases hk : cfg.ENABLE_KEEP_ALIVE <;>
    simp [init, startKeepAliveTimer, hk, State.initial, Timer.set]

theorem guarded_startup (cfg : Config) (hlt : cfg.initialCheckDuration < cfg.initialDelay)
    (result : Option (Option ℚ)) (due : Handle → ℚ) (τ : ℚ) :
    Guarded (startupStatusCallback cfg result (init cfg).1).1
      (dueAfter due τ (init cfg).1 (startupStatusCallback cfg result (init cfg).1).1) := by
  have hidle := init_scriptState cfg
  have hsame : ({ (init cfg).1 with scriptState := Phase.IDLE } : State) = (init cfg).1 := by
    rw [← hidle]
  have hstay : Guarded (init cfg).1 (dueAfter due τ (init cfg).1 (init cfg).1) :=
    guarded_of_idle _ _ (init_fresh cfg).1 (init_fresh cfg).2 hidle
  unfold startupStatusCallback
  split
  · split
    · exact guarded_startAutoOffCycle cfg hlt _ due τ (init_fresh cfg).1 (init_fresh cfg).2
        (init_consistent cfg) hidle
    · simp only
      rw [hsame]
      exact hstay
  · simp only
    rw [hsame]
    exact hstay
  · simp only
    rw [hsame]
    exact hstay

/-- When `initialCheckDuration < initialDelay`, every state of a run in which timers fire in the
order of their due times is guarded. -/
theorem orderedReachable_guarded (cfg : Config)
    (hlt : cfg.initialCheckDuration < cfg.initialDelay) (s : State) (due : Handle → ℚ)
    (h : OrderedReachable cfg s due) : Guarded s due := by
  induction h with
  | start τ =>
    exact guarded_of_idle _ _ (init_fresh cfg).1 (init_fresh cfg).2 (init_scriptState cfg)
  | startup τ τ' result => exact guarded_startup cfg hlt result _ τ'
  | status event τ s due hs ih =>
    exact guarded_statusHandler cfg hlt event τ s due ih
      (reachable_consistent cfg s (orderedReachable_reachable cfg s due hs))
  | timer h now τ s due t hs hf hmin ih =>
    exact guarded_fireTimer cfg h now τ s due t ih
      (reachable_consistent cfg s (orderedReachable_reachable cfg s due hs)) hf hmin

theorem exampleMonitoring_ordered :
    OrderedReachable defaultConfig exampleMonitoring exampleDue := by
  have h0 := @OrderedReachable.start defaultConfig 0
  rw [init_default] at h0
  have h1 := OrderedReachable.status (StatusEvent.mk "switch:0" (some (7 / 10))) 0 _ _ h0
  have e1 : (statusHandler defaultConfig (StatusEvent.mk "switch:0" (some (7 / 10)))
      State.initial).1 = exampleDelay := first_sample_default
  rw [e1] at h1
  have h2 := OrderedReachable.status (StatusEvent.mk "switch:0" (some (7 / 10))) 1000 _ _ h1
  have e2 : (statusHandler defaultConfig (StatusEvent.mk "switch:0" (some (7 / 10)))
      exampleDelay).1 = exampleConfirmed := second_sample_default
  rw [e2] at h2
  have hf : exampleConfirmed.timers.find? (fun u => u.handle == 1)
      = some (TimerEntry.mk 1 1800000 false Callback.startMonitoring) := by
    simp [exampleConfirmed]
  have h3 := OrderedReachable.timer 1 1800000 1800000 _ _ _ h2 hf (by
    intro u hu
    have : u = TimerEntry.mk 1 1800000 false Callback.startMonitoring := by
      simpa [exampleConfirmed] using hu
    rw [this])
  rw [delay_expiry_default] at h3
  exact h3

/-- C20: assume `initialCheckDuration < initialDelay` and let pending timers fire in the order of
their due times.  Then every reachable state in phase `MONITORING` has the confirmation flag set;
the main delay timer only ever fires for a confirmed cycle; and from an unconfirmed state the check
timeout aborts to `IDLE` and no status event or timer expiry issues a switch command.  Without the
ordering this fails: `startMonitoring` enters `MONITORING` from every state and leaves the flag as
it is, and the state reached by a power-on sample followed at once by the expiry of the main delay
timer is in `MONITORING` unconfirmed. -/
theorem unconfirmed_start_never_monitored (cfg : Config)
    (hlt : cfg.initialCheckDuration < cfg.initialDelay) :
    (∀ s due, OrderedReachable cfg s due → s.scriptState = Phase.MONITORING →
        s.isHeatingConfirmed = true)
      ∧ (∀ s due h t, OrderedReachable cfg s due →
          s.timers.find? (fun u => u.handle == h) = some t →
          (∀ u ∈ s.timers, due h ≤ due u.handle) →
          t.callback = Callback.startMonitoring → s.isHeatingConfirmed = true)
      ∧ (∀ s due, OrderedReachable cfg s due → s.isHeatingConfirmed = false →
          (handleInitialCheckTimeout cfg s).1.scriptState = Phase.IDLE
            ∧ (∀ event, (statusHandler cfg event s).2.filter Effect.isSwitch = [])
            ∧ ∀ h now, (fireTimer cfg h now s).2.filter Effect.isSwitch = [])
      ∧ (∀ s now, (startMonitoring cfg now s).1.scriptState = Phase.MONITORING
          ∧ (startMonitoring cfg now s).1.isHeatingConfirmed = s.isHeatingConfirmed)
      ∧ (∃ s, Reachable cfg s ∧ s.scriptState = Phase.MONITORING
          ∧ s.isHeatingConfirmed = false) := by
  have hmon : ∀ s due, OrderedReachable cfg s due → s.scriptState = Phase.MONITORING →
      s.isHeatingConfirmed = true :=
    fun s due h => (orderedReachable_guarded cfg hlt s due h).confirmed_monitoring
  have hnosw : ∀ (l : List Effect), (∀ id isOn, Effect.switchSet id isOn ∉ l) →
      l.filter Effect.isSwitch = [] := by
    intro l hl
    apply List.filter_eq_nil_iff.mpr
    intro e he hsw
    cases e with
    | switchSet id isOn => exact hl id isOn he
    | httpGet _ => simp [Effect.isSwitch] at hsw
    | getStatus _ => simp [Effect.isSwitch] at hsw
    | printError _ => simp [Effect.isSwitch] at hsw
    | timerSet _ _ _ _ => simp [Effect.isSwitch] at hsw
    | timerClear _ => simp [Effect.isSwitch] at hsw
  refine ⟨hmon, ?_, ?_, ?_, ?_⟩
  · intro s due h t hs hf hmin hcb
    have hg := orderedReachable_guarded cfg hlt s due hs
    have hc := reachable_consistent cfg s (orderedReachable_reachable cfg s due hs)
    have htm : t ∈ s.timers := List.mem_of_find?_eq_some hf
    have hth : t.handle = h := by simpa using List.find?_some hf
    cases hfl : s.isHeatingConfirmed with
    | true => rfl
    | false =>
      obtain ⟨tc, htc, _, hl⟩ := hg.check_first (hc.pending_delay t htm hcb).2.1 hfl
      have h1 := hl t htm hcb
      have h2 := hmin tc htc
      rw [hth] at h1
      exact absurd (lt_of_lt_of_le h1 h2) (lt_irrefl _)
  · intro s due hs hfl
    have hc := reachable_consistent cfg s (orderedReachable_reachable cfg s due hs)
    have hph : s.scriptState ≠ Phase.MONITORING := by
      intro hm
      have := hmon s due hs hm
      rw [hfl] at this
      exact absurd this (by decide)
    refine ⟨?_, ?_, ?_⟩
    · simp only [handleInitialCheckTimeout, if_pos hfl]
      rw [resetAndStop_fst]
    · intro event
      apply hnosw
      intro id isOn hmem
      exact hph (mem_statusHandler_switch cfg event s id isOn hmem).2.2.1
    · intro h now
      apply hnosw
      intro id isOn hmem
      exact hph (mem_fireTimer_switch cfg h now s hc id isOn hmem).2.2.1
  · intro s now
    exact ⟨startMonitoring_phase cfg now s, startMonitoring_flag cfg now s⟩
  · refine ⟨(fireTimer cfg (init cfg).1.nextHandle 0
      (statusHandler cfg (StatusEvent.mk "switch:0" (some cfg.POWER_ON_THRESHOLD))
        (init cfg).1).1).1, Reachable.timer _ _ _ (Reachable.status _ _ Reachable.start), ?_⟩
    cases hk : cfg.ENABLE_KEEP_ALIVE <;>
      simp [init, startKeepAliveTimer, hk, State.initial, Timer.set, statusHandler,
        startAutoOffCycle, fireTimer, runCallback, startMonitoring, Timer.clear]

/-- Instance at the source configuration, where the check window of 15 minutes is shorter than the
delay of 30 minutes: `exampleMonitoring` is reached by a run that fires its timers in the order of
their due times, it is in phase `MONITORING`, and its confirmation flag is set. -/
theorem unconfirmed_start_never_monitored_witness :
    (defaultConfig.initialCheckDuration < defaultConfig.initialDelay
        ∧ OrderedReachable defaultConfig exampleMonitoring exampleDue
        ∧ exampleMonitoring.scriptState = Phase.MONITORING)
      ∧ exampleMonitoring.isHeatingConfirmed = true :=
  have hlt : defaultConfig.initialCheckDuration < defaultConfig.initialDelay := by
    norm_num [defaultConfig, Config.initialCheckDuration, Config.initialDelay]
  ⟨⟨hlt, exampleMonitoring_ordered, rfl⟩,
    (unconfirmed_start_never_monitored defaultConfig hlt).1 exampleMonitoring exampleDue
      exampleMonitoring_ordered rfl⟩

end ShellyAutoOff
